import Mathlib

/-!
# CTP sender: segment codec and ACK verifier

A shallow embedding of `src/src/ctp.cc` (`build_ctp_data_packet`,
`parse_and_verify_ack`, their big-endian helpers and the routine `run_sender`)
together with the properties of the wire format and of the exchange stated in
the specification.

Conventions of the embedding:

* a C pointer to bytes is a `Mem`, the map from an offset off that pointer to
  the byte stored there; a pointer that may be null is an `Option Mem`;
* `uint8_t`, `uint16_t` and `uint32_t` values are natural numbers, every
  conversion to one of these types is an explicit reduction (`u8`, `u16`,
  `u32`);
* a function writing through a pointer returns the memory after the call;
* the reading of the wall clock (`std::time(nullptr)`) is an argument;
* what the operating system answers to `run_sender` (command line, input,
  address resolution, the values returned by `sendto` and `recvfrom`) is an
  argument too, and `run_sender` returns its exit code with the list of the
  calls it made on the socket.
-/

namespace CTP

/-! ## Machine integers and memory -/

/-- Bytes reachable from a base pointer, by offset. -/
abbrev Mem := Nat → Nat

/-- Conversion to `uint8_t`. -/
def u8 (v : Nat) : Nat := v % 256

/-- Conversion to `uint16_t`. -/
def u16 (v : Nat) : Nat := v % 65536

/-- Conversion to `uint32_t`. -/
def u32 (v : Nat) : Nat := v % 4294967296

/-- Conversion of a (signed) `time_t` to `uint32_t`. -/
def u32_of_time (t : Int) : Nat := (t % 4294967296).toNat

/-- The assignment `m[i] = v`. -/
def store (m : Mem) (i v : Nat) : Mem := fun j => if j = i then v else m j

/-- The `n` bytes found at offsets `p .. p + n - 1`. -/
def bytes (m : Mem) (p n : Nat) : List Nat := (List.range n).map (fun i => m (p + i))

/-- The libc call `memcpy(dst + d, src, n)`. -/
def memcpy (dst : Mem) (d : Nat) (src : Mem) (n : Nat) : Mem :=
  fun j => if d ≤ j ∧ j < d + n then src (j - d) else dst j

/-! ## Constants of `include/ctp.h` -/

def CTP_PTYPE_DATA : Nat := 1
def CTP_PTYPE_ACK : Nat := 2
def CTP_PTYPE_NACK : Nat := 3
def CTP_MAX_PAYLOAD : Nat := 512
def CTP_HEADER_LEN : Nat := 12

/-! ## CRC-32 (zlib) -/

/-- One shift of the reflected CRC-32 register (polynomial `0xEDB88320`). -/
def crc32_bit (c : Nat) : Nat :=
  if c % 2 = 1 then (c >>> 1) ^^^ 0xEDB88320 else c >>> 1

/-- Feeding one byte to the CRC-32 register. -/
def crc32_byte (c b : Nat) : Nat := crc32_bit^[8] (c ^^^ b)

/-- Modelled from the spec: zlib's `crc32(crc, buf, len)`, a library routine
that is not part of the sources. The spec fixes it as the 32-bit cyclic
redundancy check CRC-32/ISO-HDLC: reflected polynomial `0xEDB88320`, register
preset and final complement `0xFFFFFFFF`. The argument `buf` is the `len` bytes
found at the pointer, `none` for `Z_NULL`, in which case zlib returns the
initial value `0`. -/
def crc32 (crc : Nat) (buf : Option (List Nat)) : Nat :=
  match buf with
  | none => 0
  | some bs => (bs.foldl crc32_byte (u32 crc ^^^ 0xFFFFFFFF)) ^^^ 0xFFFFFFFF

/-! ## Big-endian helpers -/

def put_u16_be (m : Mem) (p v : Nat) : Mem :=
  let m := store m p (u8 (v >>> 8))
  store m (p + 1) (u8 (v &&& 0xFF))

def put_u32_be (m : Mem) (p v : Nat) : Mem :=
  let m := store m p (u8 (v >>> 24))
  let m := store m (p + 1) (u8 (v >>> 16))
  let m := store m (p + 2) (u8 (v >>> 8))
  store m (p + 3) (u8 (v &&& 0xFF))

def read_u32_be (m : Mem) (p : Nat) : Nat :=
  u32 (u32 (u32 (m p) <<< 24) |||
       u32 (u32 (m (p + 1)) <<< 16) |||
       u32 (u32 (m (p + 2)) <<< 8) |||
       u32 (m (p + 3)))

/-- The local array `header_for_crc` of both routines (`ctp.cc` lines 87-91
and 144-146, the same three statements): the first eight bytes of `buf`,
then `header_for_crc[0] &= uint8_t(~(1u << 5))`. -/
def header_for_crc (buf : Mem) : List Nat :=
  let h := bytes buf 0 8
  h.set 0 (u8 (h.headD 0 &&& u8 (4294967295 - (1 <<< 5))))

/-! ## Building a DATA segment -/

/-- The routine `build_ctp_data_packet`: the returned pair is the value returned
(`0` on error) and the memory at `out_buffer` after the call; `now` is the
reading of `std::time(nullptr)`. -/
def build_ctp_data_packet (out_buffer : Mem) (out_capacity : Nat) (payload : Option Mem)
    (payload_len seqnum window : Nat) (now : Int) : Nat × Mem :=
  if payload_len > CTP_MAX_PAYLOAD then (0, out_buffer)
  else
    let total_len := CTP_HEADER_LEN + payload_len + (if payload_len > 0 then 4 else 0)
    if out_capacity < total_len then (0, out_buffer)
    else
      let buf := out_buffer
      let type := CTP_PTYPE_DATA
      let tr := 0
      let window := u8 (u8 window &&& 0x1F)
      let first := u8 (((type &&& 0x03) <<< 6) ||| ((tr &&& 0x01) <<< 5) ||| (window &&& 0x1F))
      let buf := store buf 0 first
      let buf := store buf 1 (u8 seqnum)
      let buf := put_u16_be buf 2 (u16 payload_len)
      let ts := u32_of_time now
      let buf := put_u32_be buf 4 ts
      let buf := store buf 8 0
      let buf := store buf 9 0
      let buf := store buf 10 0
      let buf := store buf 11 0
      let hdr := header_for_crc buf
      let crc := crc32 0 none
      let crc := crc32 crc (some hdr)
      let buf := put_u32_be buf 8 (u32 crc)
      match payload with
      | some p =>
        if payload_len > 0 then
          let buf := memcpy buf CTP_HEADER_LEN p payload_len
          let crc_payload := crc32 0 none
          let crc_payload := crc32 crc_payload (some (bytes p 0 payload_len))
          (total_len, put_u32_be buf (CTP_HEADER_LEN + payload_len) (u32 crc_payload))
        else (total_len, buf)
      | none => (total_len, buf)

/-! ## Verifying an ACK -/

/-- The four ways `parse_and_verify_ack` returns `false`, one per diagnostic it
writes to `std::cerr` before returning: "ACK too short.", "Unexpected packet
type (expected ACK).", "ACK has TR=1, invalid." and "ACK CRC1 mismatch.". -/
inductive AckError where
  | TooShort
  | WrongType
  | InvalidFlag
  | ChecksumMismatch
deriving DecidableEq

/-- The routine `parse_and_verify_ack`: `.ok (out_window, out_seqnum)` when it
returns `true`, and the diagnostic of the failing check when it returns
`false` (the two output references are then left untouched). -/
def parse_and_verify_ack (buffer : Mem) (length : Nat) : Except AckError (Nat × Nat) :=
  if length < CTP_HEADER_LEN then .error .TooShort
  else
    let buf := buffer
    let first := buf 0
    let type := u8 ((first >>> 6) &&& 0x03)
    let tr := u8 ((first >>> 5) &&& 0x01)
    let window := u8 (first &&& 0x1F)
    if type ≠ CTP_PTYPE_ACK then .error .WrongType
    else if tr ≠ 0 then .error .InvalidFlag
    else
      let stored_crc := read_u32_be buf 8
      let hdr := header_for_crc buf
      let crc := crc32 0 none
      let crc := crc32 crc (some hdr)
      if stored_crc ≠ u32 crc then .error .ChecksumMismatch
      else .ok (window, buf 1)

/-- The DecidableEq instance used to evaluate verdicts of the verifier. -/
instance instDecidableEqExcept {ε α : Type} [DecidableEq ε] [DecidableEq α] :
    DecidableEq (Except ε α) := fun a b =>
  match a, b with
  | .ok x, .ok y => if h : x = y then isTrue (by rw [h]) else isFalse (fun e => h (Except.ok.inj e))
  | .error x, .error y =>
    if h : x = y then isTrue (by rw [h]) else isFalse (fun e => h (Except.error.inj e))
  | .ok _, .error _ => isFalse (fun e => Except.noConfusion e)
  | .error _, .ok _ => isFalse (fun e => Except.noConfusion e)

/-- The bytes of the two-character payload "hi". -/
def hi : Mem := fun i => [0x68, 0x69].getD i 0

/-- A buffer holding `0xAA` everywhere, standing for memory already in use. -/
def stale : Mem := fun _ => 0xAA

/-- A valid ACK with window 3 and sequence number 9 (zero length and timestamp). -/
def ack_3_9 : Mem := fun i => [0x83, 9, 0, 0, 0, 0, 0, 0, 0x2D, 0x0E, 0x18, 0x83].getD i 0

/-- Flipping bit `k` of the byte at offset `j`. -/
def flip_bit (m : Mem) (j k : Nat) : Mem := store m j (m j ^^^ (1 <<< k))

/-- A valid ACK header (window 3, sequence number 9) whose length field announces five
payload bytes. -/
def ack_len5 : Mem := fun i => [0x83, 9, 0, 5, 0, 0, 0, 0, 0xE5, 0xEE, 0x97, 0xF3].getD i 0

/-! ## The sender routine -/

/-- The calls `run_sender` makes on its socket. `sendto data` stands for
`sendto(sock, send_buf, len, ...)`, `data` being the `len` bytes of `send_buf` handed over;
`recvfrom` stands for `recvfrom(sock, recv_buf, sizeof(recv_buf), ...)`. -/
inductive Event where
  | sendto (data : List Nat)
  | recvfrom
deriving DecidableEq

/-- What the surroundings of `run_sender` answer, call by call, in program order. -/
structure Env where
  /-- The command line: `argv[0 .. argc - 1]`. -/
  argv : List String
  /-- The bytes of the file of that name, `none` when it cannot be opened. -/
  open_file : String → Option (List Nat)
  /-- The bytes read from `std::cin`. -/
  stdin : List Nat
  /-- The value returned by `getaddrinfo(host, port, ..)` and, for each entry of `results` in
  order, the value `::socket` returns for it. -/
  getaddrinfo : String → String → Int × List Int
  /-- The contents of the local array `send_buf` before it is first written. -/
  send_buf : Mem
  /-- The reading of the clock in the first call of `build_ctp_data_packet`. -/
  time_data : Int
  /-- The value returned by the first `sendto`. -/
  sent_data : Int
  /-- The value returned by `recvfrom`. -/
  recvd : Int
  /-- The contents of the local array `recv_buf` after `recvfrom`. -/
  recv_buf : Mem
  /-- The reading of the clock in the second call of `build_ctp_data_packet`. -/
  time_final : Int
  /-- The value returned by the second `sendto`. -/
  sent_final : Int

/-- The loop of `run_sender` over `results` (`ctp.cc` lines 231-238), on the values `::socket`
returns: the first descriptor other than `-1`, `none` when the list is exhausted, which is
when `sock == -1 || ptr == nullptr` holds after the loop. -/
def open_socket : List Int → Option Int
  | [] => none
  | sock :: rest => if sock ≠ -1 then some sock else open_socket rest

/-- The first part of `run_sender` (`ctp.cc` lines 169-244): command line, input, address
resolution and socket. It yields the exit code of an early `return`, or the input `data`. -/
def run_sender_setup (env : Env) : Except Int (List Nat) :=
  let c : Int := env.argv.length
  let v : Nat → String := fun i => env.argv.getD i ""
  let parsed : Option (String × Nat) :=
    if 1 < c ∧ v 1 = "-f" then
      if (1 : Int) + 1 ≥ c then none else some (v (1 + 1), 1 + 2)
    else some ("", 1)
  match parsed with
  | none => .error 1
  | some (filename, x) =>
    if c - (x : Int) ≠ 2 then .error 1
    else
      let host := v x
      let port := v (x + 1)
      let input : Option (List Nat) :=
        if filename ≠ "" then env.open_file filename else some env.stdin
      match input with
      | none => .error 1
      | some data =>
        if data.length > CTP_MAX_PAYLOAD then .error 1
        else
          let rval := (env.getaddrinfo host port).1
          if rval ≠ 0 then .error 2
          else
            match open_socket (env.getaddrinfo host port).2 with
            | none => .error 3
            | some _ => .ok data

/-- The routine `run_sender` (`ctp.cc` lines 168-360): its exit code and the calls it made
on the socket, in order. -/
def run_sender (env : Env) : Int × List Event :=
  match run_sender_setup env with
  | .error code => (code, [])
  | .ok data =>
    let send_buf := env.send_buf
    let seqnum := 0
    let built := build_ctp_data_packet send_buf (CTP_HEADER_LEN + CTP_MAX_PAYLOAD + 4)
      (if data = [] then none else some (fun i => data.getD i 0)) data.length seqnum 1
      env.time_data
    let data_pkt_len := built.1
    let send_buf := built.2
    if data_pkt_len = 0 then (4, [])
    else
      let sent := env.sent_data
      let ev1 := Event.sendto (bytes send_buf 0 data_pkt_len)
      if sent < 0 ∨ sent.toNat ≠ data_pkt_len then (5, [ev1])
      else
        let recvd := env.recvd
        let recv_buf := env.recv_buf
        if recvd < 0 then (6, [ev1, Event.recvfrom])
        else
          match parse_and_verify_ack recv_buf recvd.toNat with
          | .error _ => (7, [ev1, Event.recvfrom])
          | .ok (_, ack_seqnum) =>
            let built := build_ctp_data_packet send_buf (CTP_HEADER_LEN + CTP_MAX_PAYLOAD + 4)
              none 0 ack_seqnum 1 env.time_final
            let fin_len := built.1
            let send_buf := built.2
            if fin_len = 0 then (8, [ev1, Event.recvfrom])
            else
              let sent := env.sent_final
              let ev2 := Event.sendto (bytes send_buf 0 fin_len)
              if sent < 0 ∨ sent.toNat ≠ fin_len then (9, [ev1, Event.recvfrom, ev2])
              else
                -- lines 343-354: `recvd` is tested again and `recv_buf` parsed again,
                -- the verdict is dropped; no call is made on the socket
                let _verdict :=
                  if recvd < 0 then none
                  else some (parse_and_verify_ack recv_buf recvd.toNat)
                (0, [ev1, Event.recvfrom, ev2])

/-- A run on an empty standard input, answered by the valid ACK `ack_3_9`. -/
def env_ok : Env where
  argv := ["sender", "localhost", "9000"]
  open_file := fun _ => none
  stdin := []
  getaddrinfo := fun _ _ => (0, [3])
  send_buf := stale
  time_data := 1700000000
  sent_data := 12
  recvd := 12
  recv_buf := ack_3_9
  time_final := 1700000001
  sent_final := 12

/-- The segments handed to `sendto` in a run, in order. -/
def sent_segments : List Event → List (List Nat)
  | [] => []
  | Event.sendto data :: rest => data :: sent_segments rest
  | Event.recvfrom :: rest => sent_segments rest

/-- The run of `env_ok` answered by a datagram that the verifier rejects. -/
def env_bad_ack : Env := { env_ok with recv_buf := stale }

/-! ## Basic facts on stores and big-endian fields -/

theorem store_same (m : Mem) (i v : Nat) : store m i v i = v := by
  simp [store]

theorem store_other (m : Mem) (i v j : Nat) (h : j ≠ i) : store m i v j = m j := by
  simp [store, h]

theorem u8_lt (v : Nat) : u8 v < 256 := Nat.mod_lt _ (by decide)

theorem u32_lt (v : Nat) : u32 v < 4294967296 := Nat.mod_lt _ (by decide)

theorem u8_of_lt {v : Nat} (h : v < 256) : u8 v = v := Nat.mod_eq_of_lt h

theorem u32_of_lt {v : Nat} (h : v < 4294967296) : u32 v = v := Nat.mod_eq_of_lt h

theorem u32_of_time_lt (t : Int) : u32_of_time t < 4294967296 := by
  unfold u32_of_time
  omega

theorem and_255 (v : Nat) : v &&& 0xFF = v % 256 :=
  Nat.and_pow_two_sub_one_eq_mod v 8

theorem and_31 (v : Nat) : v &&& 0x1F = v % 32 :=
  Nat.and_pow_two_sub_one_eq_mod v 5

theorem put_u32_be_at (m : Mem) (p v j : Nat) :
    put_u32_be m p v j =
      if j = p + 3 then u8 (v &&& 0xFF)
      else if j = p + 2 then u8 (v >>> 8)
      else if j = p + 1 then u8 (v >>> 16)
      else if j = p then u8 (v >>> 24)
      else m j := by
  simp only [put_u32_be, store]

theorem put_u16_be_at (m : Mem) (p v j : Nat) :
    put_u16_be m p v j =
      if j = p + 1 then u8 (v &&& 0xFF)
      else if j = p then u8 (v >>> 8)
      else m j := by
  simp only [put_u16_be, store]

/-- Reading back a 32-bit value written big-endian. -/
theorem read_put_u32_be (m : Mem) (p v : Nat) (hv : v < 4294967296) :
    read_u32_be (put_u32_be m p v) p = v := by
  have h0 : put_u32_be m p v p = v / 16777216 % 256 := by
    simp [put_u32_be_at, u8, Nat.shiftRight_eq_div_pow]
  have h1 : put_u32_be m p v (p + 1) = v / 65536 % 256 := by
    simp [put_u32_be_at, u8, Nat.shiftRight_eq_div_pow]
  have h2 : put_u32_be m p v (p + 2) = v / 256 % 256 := by
    simp [put_u32_be_at, u8, Nat.shiftRight_eq_div_pow]
  have h3 : put_u32_be m p v (p + 3) = v % 256 := by
    simp [put_u32_be_at, u8, and_255]
  unfold read_u32_be
  rw [h0, h1, h2, h3]
  simp only [u32, Nat.shiftLeft_eq]
  have e1 : v / 16777216 % 256 % 4294967296 * 2 ^ 24 % 4294967296
      = 2 ^ 24 * (v / 16777216) := by omega
  have e2 : v / 65536 % 256 % 4294967296 * 2 ^ 16 % 4294967296
      = 2 ^ 16 * (v / 65536 % 256) := by omega
  have e3 : v / 256 % 256 % 4294967296 * 2 ^ 8 % 4294967296
      = 2 ^ 8 * (v / 256 % 256) := by omega
  have e4 : v % 256 % 4294967296 = v % 256 := by omega
  rw [e1, e2, e3, e4]
  have a1 : 2 ^ 24 * (v / 16777216) ||| 2 ^ 16 * (v / 65536 % 256)
      = 2 ^ 16 * (v / 65536) := by
    have := Nat.mul_add_lt_is_or (show 2 ^ 16 * (v / 65536 % 256) < 2 ^ 24 by omega)
      (v / 16777216)
    rw [← this]; omega
  have a2 : 2 ^ 16 * (v / 65536) ||| 2 ^ 8 * (v / 256 % 256) = 2 ^ 8 * (v / 256) := by
    have := Nat.mul_add_lt_is_or (show 2 ^ 8 * (v / 256 % 256) < 2 ^ 16 by omega)
      (v / 65536)
    rw [← this]; omega
  have a3 : 2 ^ 8 * (v / 256) ||| v % 256 = v := by
    have := Nat.mul_add_lt_is_or (show v % 256 < 2 ^ 8 by omega) (v / 256)
    rw [← this]; omega
  rw [a1, a2, a3]
  omega

/-! ## The value returned by `build_ctp_data_packet` -/

theorem build_fst (out : Mem) (cap : Nat) (payload : Option Mem) (n s w : Nat) (now : Int) :
    (build_ctp_data_packet out cap payload n s w now).1 =
      if 512 < n then 0
      else if cap < 12 + n + (if 0 < n then 4 else 0) then 0
      else 12 + n + (if 0 < n then 4 else 0) := by
  unfold build_ctp_data_packet
  simp only [CTP_MAX_PAYLOAD, CTP_HEADER_LEN, gt_iff_lt]
  split_ifs <;> first | rfl | (cases payload <;> rfl)

theorem build_snd_of_too_large (out : Mem) (cap : Nat) (payload : Option Mem) (n s w : Nat)
    (now : Int) (h : 512 < n) :
    (build_ctp_data_packet out cap payload n s w now).2 = out := by
  unfold build_ctp_data_packet
  simp [CTP_MAX_PAYLOAD, h]

theorem build_snd_of_too_small (out : Mem) (cap : Nat) (payload : Option Mem) (n s w : Nat)
    (now : Int) (h : cap < 12 + n + (if 0 < n then 4 else 0)) :
    (build_ctp_data_packet out cap payload n s w now).2 = out := by
  unfold build_ctp_data_packet
  simp only [CTP_MAX_PAYLOAD, CTP_HEADER_LEN, gt_iff_lt]
  split_ifs <;> rfl

/-- What a successful call means for its arguments. -/
theorem build_ok_iff (out : Mem) (cap : Nat) (payload : Option Mem) (n s w : Nat) (now : Int) :
    (build_ctp_data_packet out cap payload n s w now).1 ≠ 0 ↔
      n ≤ 512 ∧ 12 + n + (if 0 < n then 4 else 0) ≤ cap := by
  rw [build_fst]
  split_ifs <;> omega

/-! ## The header written by `build_ctp_data_packet` -/

theorem header_for_crc_eq (m : Mem) :
    header_for_crc m = [u8 (m 0 &&& 0xDF), m 1, m 2, m 3, m 4, m 5, m 6, m 7] := by
  rfl

/-- The twelve header bytes do not depend on the payload pointer. -/
theorem build_header_indep (out : Mem) (cap : Nat) (payload : Option Mem) (n s w : Nat)
    (now : Int) (i : Nat) (hi : i < 12) :
    (build_ctp_data_packet out cap payload n s w now).2 i =
      (build_ctp_data_packet out cap none n s w now).2 i := by
  cases payload with
  | none => rfl
  | some p =>
    by_cases h3 : 0 < n
    · unfold build_ctp_data_packet
      simp only [CTP_MAX_PAYLOAD, CTP_HEADER_LEN, gt_iff_lt, h3, if_true]
      split_ifs with h1 h2
      · rfl
      · rfl
      · have e1 : ¬ (12 ≤ i ∧ i < 12 + n) := by omega
        have e2 : i ≠ 12 + n + 3 := by omega
        have e3 : i ≠ 12 + n + 2 := by omega
        have e4 : i ≠ 12 + n + 1 := by omega
        have e5 : i ≠ 12 + n := by omega
        simp only [put_u32_be_at (memcpy _ _ _ _), memcpy, e1, e2, e3, e4, e5, if_false]
    · unfold build_ctp_data_packet
      simp only [CTP_MAX_PAYLOAD, CTP_HEADER_LEN, gt_iff_lt, h3, if_false]

/-- The first header byte as the routine computes it. -/
theorem first_byte_eq (w : Nat) :
    u8 (((CTP_PTYPE_DATA &&& 0x03) <<< 6) ||| ((0 &&& 0x01) <<< 5)
      ||| (u8 (u8 w &&& 0x1F) &&& 0x1F)) = 0x40 ||| (w &&& 0x1F) := by
  have key : ∀ x < 32, u8 (((1 &&& 0x03) <<< 6) ||| ((0 &&& 0x01) <<< 5)
      ||| (u8 x &&& 0x1F)) = 0x40 ||| x := by decide
  have hx : w % 32 < 32 := Nat.mod_lt _ (by decide)
  have e : u8 w &&& 0x1F = w % 32 := by
    rw [and_31, u8]; omega
  rw [e, and_31 w]
  exact key _ hx

/-- Byte 0 of a successful call. -/
theorem build_byte0 (out : Mem) (cap : Nat) (payload : Option Mem) (n s w : Nat) (now : Int)
    (h : (build_ctp_data_packet out cap payload n s w now).1 ≠ 0) :
    (build_ctp_data_packet out cap payload n s w now).2 0 = 0x40 ||| (w &&& 0x1F) := by
  obtain ⟨hn, hcap⟩ := (build_ok_iff out cap payload n s w now).1 h
  have hn' : ¬ 512 < n := by omega
  have hcap' : ¬ cap < 12 + n + (if 0 < n then 4 else 0) := by omega
  rw [build_header_indep _ _ _ _ _ _ _ _ (by omega), ← first_byte_eq]
  unfold build_ctp_data_packet
  simp [CTP_MAX_PAYLOAD, CTP_HEADER_LEN, hn', hcap', put_u32_be_at, put_u16_be_at, store]

/-- Bytes 1 to 7 of a successful call. -/
theorem build_bytes_1_7 (out : Mem) (cap : Nat) (payload : Option Mem) (n s w : Nat)
    (now : Int) (h : (build_ctp_data_packet out cap payload n s w now).1 ≠ 0) :
    (build_ctp_data_packet out cap payload n s w now).2 1 = u8 s ∧
    (build_ctp_data_packet out cap payload n s w now).2 2 = u8 (u16 n >>> 8) ∧
    (build_ctp_data_packet out cap payload n s w now).2 3 = u8 (u16 n &&& 0xFF) ∧
    (build_ctp_data_packet out cap payload n s w now).2 4 = u8 (u32_of_time now >>> 24) ∧
    (build_ctp_data_packet out cap payload n s w now).2 5 = u8 (u32_of_time now >>> 16) ∧
    (build_ctp_data_packet out cap payload n s w now).2 6 = u8 (u32_of_time now >>> 8) ∧
    (build_ctp_data_packet out cap payload n s w now).2 7 = u8 (u32_of_time now &&& 0xFF) := by
  obtain ⟨hn, hcap⟩ := (build_ok_iff out cap payload n s w now).1 h
  have hn' : ¬ 512 < n := by omega
  have hcap' : ¬ cap < 12 + n + (if 0 < n then 4 else 0) := by omega
  refine ⟨?_, ?_, ?_, ?_, ?_, ?_, ?_⟩ <;>
  · rw [build_header_indep _ _ _ _ _ _ _ _ (by omega)]
    unfold build_ctp_data_packet
    simp [CTP_MAX_PAYLOAD, CTP_HEADER_LEN, hn', hcap', put_u32_be_at, put_u16_be_at, store]

/-- Bytes 8 to 11 of a successful call: the checksum of the header just written. -/
theorem build_bytes_8_11 (out : Mem) (cap : Nat) (payload : Option Mem) (n s w : Nat)
    (now : Int) (h : (build_ctp_data_packet out cap payload n s w now).1 ≠ 0) :
    (build_ctp_data_packet out cap payload n s w now).2 8 =
      u8 (u32 (crc32 0 (some (header_for_crc
        (build_ctp_data_packet out cap payload n s w now).2))) >>> 24) ∧
    (build_ctp_data_packet out cap payload n s w now).2 9 =
      u8 (u32 (crc32 0 (some (header_for_crc
        (build_ctp_data_packet out cap payload n s w now).2))) >>> 16) ∧
    (build_ctp_data_packet out cap payload n s w now).2 10 =
      u8 (u32 (crc32 0 (some (header_for_crc
        (build_ctp_data_packet out cap payload n s w now).2))) >>> 8) ∧
    (build_ctp_data_packet out cap payload n s w now).2 11 =
      u8 (u32 (crc32 0 (some (header_for_crc
        (build_ctp_data_packet out cap payload n s w now).2))) &&& 0xFF) := by
  obtain ⟨hn, hcap⟩ := (build_ok_iff out cap payload n s w now).1 h
  have hn' : ¬ 512 < n := by omega
  have hcap' : ¬ cap < 12 + n + (if 0 < n then 4 else 0) := by omega
  have hb0 := build_byte0 out cap payload n s w now h
  obtain ⟨h1, h2, h3, h4, h5, h6, h7⟩ := build_bytes_1_7 out cap payload n s w now h
  rw [header_for_crc_eq, hb0, h1, h2, h3, h4, h5, h6, h7, ← first_byte_eq]
  refine ⟨?_, ?_, ?_, ?_⟩ <;>
  · rw [build_header_indep _ _ _ _ _ _ _ _ (by omega)]
    unfold build_ctp_data_packet
    simp [CTP_MAX_PAYLOAD, CTP_HEADER_LEN, hn', hcap', put_u32_be_at, put_u16_be_at, store,
      header_for_crc_eq, crc32]

/-! ## Range of the CRC-32 -/

theorem crc32_bit_lt {c : Nat} (h : c < 4294967296) : crc32_bit c < 4294967296 := by
  unfold crc32_bit
  have h1 : c >>> 1 < 2 ^ 32 := by
    rw [Nat.shiftRight_eq_div_pow]; omega
  split_ifs
  · exact Nat.xor_lt_two_pow h1 (by decide)
  · exact h1

theorem crc32_bit_iterate_lt (k : Nat) {c : Nat} (h : c < 4294967296) :
    crc32_bit^[k] c < 4294967296 := by
  induction k generalizing c with
  | zero => simpa using h
  | succ k ih =>
    rw [Function.iterate_succ_apply]
    exact ih (crc32_bit_lt h)

theorem crc32_byte_lt {c b : Nat} (hc : c < 4294967296) (hb : b < 256) :
    crc32_byte c b < 4294967296 := by
  unfold crc32_byte
  apply crc32_bit_iterate_lt
  exact Nat.xor_lt_two_pow (n := 32) hc (by omega)

theorem foldl_crc32_byte_lt (bs : List Nat) (hbs : ∀ b ∈ bs, b < 256) {c : Nat}
    (hc : c < 4294967296) : bs.foldl crc32_byte c < 4294967296 := by
  induction bs generalizing c with
  | nil => simpa using hc
  | cons b bs ih =>
    rw [List.foldl_cons]
    exact ih (fun x hx => hbs x (List.mem_cons_of_mem _ hx))
      (crc32_byte_lt hc (hbs b (List.mem_cons_self _ _)))

/-- The CRC-32 of a sequence of bytes is a 32-bit value. -/
theorem crc32_lt (crc : Nat) (bs : List Nat) (hbs : ∀ b ∈ bs, b < 256) :
    crc32 crc (some bs) < 4294967296 := by
  unfold crc32
  simp only
  apply Nat.xor_lt_two_pow (n := 32)
  · apply foldl_crc32_byte_lt bs hbs
    exact Nat.xor_lt_two_pow (n := 32) (u32_lt crc) (by decide)
  · decide

theorem be32_bytes (c : Nat) :
    u8 (u32 c >>> 24) = c / 16777216 % 256 ∧ u8 (u32 c >>> 16) = c / 65536 % 256 ∧
    u8 (u32 c >>> 8) = c / 256 % 256 ∧ u8 (u32 c &&& 0xFF) = c % 256 := by
  simp only [and_255, u8, u32, Nat.shiftRight_eq_div_pow]
  omega

/-- The window argument only enters through its low five bits. -/
theorem build_window_add_32 (out : Mem) (cap : Nat) (payload : Option Mem) (n s w : Nat)
    (now : Int) :
    build_ctp_data_packet out cap payload n s (w + 32) now =
      build_ctp_data_packet out cap payload n s w now := by
  have e : u8 (u8 (w + 32) &&& 0x1F) = u8 (u8 w &&& 0x1F) := by
    rw [and_31, and_31]; simp only [u8]; omega
  unfold build_ctp_data_packet
  simp only [e]

/-! ## The claims on `build_ctp_data_packet` -/

/-- C1: for every payload length `n ≤ 512`, every sequence number and window, and every
capacity of at least `12 + n + (4 if n > 0 else 0)`, `build_ctp_data_packet` returns exactly
`12 + n + (4 if n > 0 else 0)`: `12` when `n = 0` and `18` for a payload of two bytes. -/
theorem build_returns_total_len (out : Mem) (cap : Nat) (payload : Option Mem) (n s w : Nat)
    (now : Int) (hn : n ≤ 512) (hcap : 12 + n + (if 0 < n then 4 else 0) ≤ cap) :
    (build_ctp_data_packet out cap payload n s w now).1 = 12 + n + (if 0 < n then 4 else 0) ∧
    (n = 0 → (build_ctp_data_packet out cap payload n s w now).1 = 12) ∧
    (n = 2 → (build_ctp_data_packet out cap payload n s w now).1 = 18) := by
  have hn' : ¬ 512 < n := by omega
  have hcap' : ¬ cap < 12 + n + (if 0 < n then 4 else 0) := by omega
  rw [build_fst, if_neg hn', if_neg hcap']
  refine ⟨rfl, ?_, ?_⟩
  · intro h0; subst h0; rfl
  · intro h2; subst h2; rfl

theorem build_returns_total_len_witness :
    (2 ≤ 512 ∧ 12 + 2 + (if 0 < 2 then 4 else 0) ≤ 18) ∧
    (build_ctp_data_packet stale 18 (some hi) 2 0 1 1700000000).1 = 18 ∧
    (build_ctp_data_packet stale 12 none 0 7 1 1700000000).1 = 12 :=
  ⟨by decide,
   (build_returns_total_len stale 18 (some hi) 2 0 1 1700000000 (by decide) (by decide)).2.2 rfl,
   (build_returns_total_len stale 12 none 0 7 1 1700000000 (by decide) (by decide)).2.1 rfl⟩

/-- C2: after a successful call, bytes 8..11 of the output are the big-endian encoding of
the CRC-32 of a copy of output bytes 0..7 in which bit 5 of byte 0 is cleared (a value below
`2^32`), and they are the same whatever the buffer held before the call. -/
theorem build_checksum1 (out : Mem) (cap : Nat) (payload : Option Mem) (n s w : Nat)
    (now : Int) (h : (build_ctp_data_packet out cap payload n s w now).1 ≠ 0) :
    let r := (build_ctp_data_packet out cap payload n s w now).2
    let c := crc32 0 (some [r 0 &&& 0xDF, r 1, r 2, r 3, r 4, r 5, r 6, r 7])
    (c < 4294967296 ∧ r 8 = c / 16777216 ∧ r 9 = c / 65536 % 256 ∧ r 10 = c / 256 % 256 ∧
      r 11 = c % 256) ∧
    ∀ out2 : Mem, ∀ i, 8 ≤ i → i < 12 →
      (build_ctp_data_packet out2 cap payload n s w now).2 i = r i := by
  intro r c
  have hb0 : r 0 = 0x40 ||| (w &&& 0x1F) := build_byte0 out cap payload n s w now h
  have h17 : r 1 = u8 s ∧ r 2 = u8 (u16 n >>> 8) ∧ r 3 = u8 (u16 n &&& 0xFF) ∧
      r 4 = u8 (u32_of_time now >>> 24) ∧ r 5 = u8 (u32_of_time now >>> 16) ∧
      r 6 = u8 (u32_of_time now >>> 8) ∧ r 7 = u8 (u32_of_time now &&& 0xFF) :=
    build_bytes_1_7 out cap payload n s w now h
  have h811 : r 8 = u8 (u32 (crc32 0 (some (header_for_crc r))) >>> 24) ∧
      r 9 = u8 (u32 (crc32 0 (some (header_for_crc r))) >>> 16) ∧
      r 10 = u8 (u32 (crc32 0 (some (header_for_crc r))) >>> 8) ∧
      r 11 = u8 (u32 (crc32 0 (some (header_for_crc r))) &&& 0xFF) :=
    build_bytes_8_11 out cap payload n s w now h
  have hr0 : r 0 &&& 0xDF < 256 :=
    lt_of_le_of_lt Nat.and_le_right (by decide)
  have hc : crc32 0 (some (header_for_crc r)) = c := by
    rw [header_for_crc_eq, u8_of_lt hr0]
  obtain ⟨h1, h2, h3, h4, h5, h6, h7⟩ := h17
  have hlt : c < 4294967296 := by
    apply crc32_lt
    intro b hb
    simp only [List.mem_cons, List.mem_singleton, List.not_mem_nil, or_false] at hb
    rcases hb with hb | hb | hb | hb | hb | hb | hb | hb <;> subst hb
    · exact hr0
    · rw [h1]; exact u8_lt _
    · rw [h2]; exact u8_lt _
    · rw [h3]; exact u8_lt _
    · rw [h4]; exact u8_lt _
    · rw [h5]; exact u8_lt _
    · rw [h6]; exact u8_lt _
    · rw [h7]; exact u8_lt _
  rw [hc] at h811
  obtain ⟨e1, e2, e3, e4⟩ := be32_bytes c
  rw [e1, e2, e3, e4] at h811
  refine ⟨⟨hlt, ?_, h811.2.1, h811.2.2.1, h811.2.2.2⟩, ?_⟩
  · rw [h811.1]; omega
  · intro out2 i hi8 hi12
    have hok : (build_ctp_data_packet out2 cap payload n s w now).1 ≠ 0 :=
      (build_ok_iff out2 cap payload n s w now).2
        ((build_ok_iff out cap payload n s w now).1 h)
    have hb0' := build_byte0 out2 cap payload n s w now hok
    obtain ⟨k1, k2, k3, k4, k5, k6, k7⟩ := build_bytes_1_7 out2 cap payload n s w now hok
    have h811' := build_bytes_8_11 out2 cap payload n s w now hok
    have hh : header_for_crc (build_ctp_data_packet out2 cap payload n s w now).2 =
        header_for_crc r := by
      rw [header_for_crc_eq, header_for_crc_eq, hb0', hb0, k1, h1, k2, h2, k3, h3, k4, h4,
        k5, h5, k6, h6, k7, h7]
    rw [hh, hc, e1, e2, e3, e4] at h811'
    have hi : i = 8 ∨ i = 9 ∨ i = 10 ∨ i = 11 := by omega
    rcases hi with hi | hi | hi | hi <;> subst hi
    · rw [h811'.1, h811.1]
    · rw [h811'.2.1, h811.2.1]
    · rw [h811'.2.2.1, h811.2.2.1]
    · rw [h811'.2.2.2, h811.2.2.2]

set_option maxRecDepth 8000 in
theorem build_checksum1_witness :
    (build_ctp_data_packet stale 18 (some hi) 2 0 1 1700000000).1 ≠ 0 ∧
    bytes (build_ctp_data_packet stale 18 (some hi) 2 0 1 1700000000).2 8 4
      = [0x95, 0x70, 0x09, 0x5E] ∧
    ∀ out2 : Mem, ∀ i, 8 ≤ i → i < 12 →
      (build_ctp_data_packet out2 18 (some hi) 2 0 1 1700000000).2 i =
        (build_ctp_data_packet stale 18 (some hi) 2 0 1 1700000000).2 i :=
  ⟨by decide, by decide,
   (build_checksum1 stale 18 (some hi) 2 0 1 1700000000 (by decide)).2⟩

/-- C4: after a successful call with window argument `w`, output byte 0 is
`0x40 | (w & 0x1F)`: its type bits 7-6 are DATA, its TR bit 5 is 0 and its low five bits
are `w` masked to five bits; the call with `w + 32` gives the same result as the call with
`w`, so a window of 32 or more is truncated and not rejected. -/
theorem build_first_byte (out : Mem) (cap : Nat) (payload : Option Mem) (n s w : Nat)
    (now : Int) (h : (build_ctp_data_packet out cap payload n s w now).1 ≠ 0) :
    let b0 := (build_ctp_data_packet out cap payload n s w now).2 0
    b0 = 0x40 ||| (w &&& 0x1F) ∧
    (b0 >>> 6) &&& 0x03 = CTP_PTYPE_DATA ∧
    (b0 >>> 5) &&& 0x01 = 0 ∧
    b0 &&& 0x1F = w % 32 ∧
    build_ctp_data_packet out cap payload n s (w + 32) now =
      build_ctp_data_packet out cap payload n s w now := by
  intro b0
  have hb0 : b0 = 0x40 ||| (w &&& 0x1F) := build_byte0 out cap payload n s w now h
  have key : ∀ x < 32, ((0x40 ||| x) >>> 6) &&& 0x03 = CTP_PTYPE_DATA ∧
      ((0x40 ||| x) >>> 5) &&& 0x01 = 0 ∧ (0x40 ||| x) &&& 0x1F = x := by decide
  have hx : w % 32 < 32 := Nat.mod_lt _ (by decide)
  rw [and_31] at hb0
  obtain ⟨k1, k2, k3⟩ := key _ hx
  rw [hb0]
  exact ⟨by rw [and_31], k1, k2, k3, build_window_add_32 out cap payload n s w now⟩

theorem build_first_byte_witness :
    (build_ctp_data_packet stale 18 (some hi) 2 0 1 1700000000).1 ≠ 0 ∧
    (build_ctp_data_packet stale 18 (some hi) 2 0 1 1700000000).2 0 = 0x41 ∧
    (build_ctp_data_packet stale 18 (some hi) 2 0 33 1700000000).2 0 = 0x41 :=
  ⟨by decide, (build_first_byte stale 18 (some hi) 2 0 1 1700000000 (by decide)).1,
   by decide⟩

/-- C5: after a successful call with payload length `n`, sequence number `s` (a byte) and
clock reading `now`, output byte 1 is `s`, bytes 2..3 are `n / 256` and `n mod 256`, and
bytes 4..7 are the big-endian 32-bit encoding of `now mod 2^32`. -/
theorem build_header_fields (out : Mem) (cap : Nat) (payload : Option Mem) (n s w : Nat)
    (now : Int) (hs : s < 256)
    (h : (build_ctp_data_packet out cap payload n s w now).1 ≠ 0) :
    let r := (build_ctp_data_packet out cap payload n s w now).2
    let t := (now % 4294967296).toNat
    r 1 = s ∧ r 2 = n / 256 ∧ r 3 = n % 256 ∧
    t < 4294967296 ∧ r 4 = t / 16777216 ∧ r 5 = t / 65536 % 256 ∧ r 6 = t / 256 % 256 ∧
    r 7 = t % 256 := by
  intro r t
  obtain ⟨hn, -⟩ := (build_ok_iff out cap payload n s w now).1 h
  have ht : t < 4294967296 := u32_of_time_lt now
  have h17 : r 1 = u8 s ∧ r 2 = u8 (u16 n >>> 8) ∧ r 3 = u8 (u16 n &&& 0xFF) ∧
      r 4 = u8 (t >>> 24) ∧ r 5 = u8 (t >>> 16) ∧
      r 6 = u8 (t >>> 8) ∧ r 7 = u8 (t &&& 0xFF) :=
    build_bytes_1_7 out cap payload n s w now h
  obtain ⟨h1, h2, h3, h4, h5, h6, h7⟩ := h17
  rw [h1, h2, h3, h4, h5, h6, h7]
  simp only [and_255, u8, u16, Nat.shiftRight_eq_div_pow, Nat.reducePow]
  refine ⟨?_, ?_, ?_, ?_, ?_, ?_, ?_, ?_⟩ <;> first | trivial | omega

theorem build_header_fields_witness :
    (0 < 256 ∧ (build_ctp_data_packet stale 18 (some hi) 2 0 1 1700000000).1 ≠ 0) ∧
    bytes (build_ctp_data_packet stale 18 (some hi) 2 0 1 1700000000).2 1 7
      = [0x00, 0x00, 0x02, 0x65, 0x53, 0xF1, 0x00] ∧
    (build_ctp_data_packet stale 18 (some hi) 2 0 1 1700000000).2 1 = 0 :=
  ⟨by decide, by decide,
   (build_header_fields stale 18 (some hi) 2 0 1 1700000000 (by decide) (by decide)).1⟩

/-- C6: for every payload length above 512, whatever the capacity, sequence number and
window, `build_ctp_data_packet` returns 0 and leaves the output buffer as it was. -/
theorem build_rejects_oversized (out : Mem) (cap : Nat) (payload : Option Mem) (n s w : Nat)
    (now : Int) (h : 512 < n) :
    build_ctp_data_packet out cap payload n s w now = (0, out) := by
  unfold build_ctp_data_packet
  simp [CTP_MAX_PAYLOAD, h]

theorem build_rejects_oversized_witness :
    512 < 513 ∧ build_ctp_data_packet stale 1024 (some hi) 513 0 1 1700000000 = (0, stale) :=
  ⟨by decide, build_rejects_oversized stale 1024 (some hi) 513 0 1 1700000000 (by decide)⟩

/-- C7: `build_ctp_data_packet` returns 0 exactly when the payload length exceeds 512 or the
capacity is below `12 + n + (4 if n > 0 else 0)`; a capacity that is too small leaves the
output buffer as it was; and a call that does not return 0 returns at least 12. -/
theorem build_zero_iff_error (out : Mem) (cap : Nat) (payload : Option Mem) (n s w : Nat)
    (now : Int) :
    ((build_ctp_data_packet out cap payload n s w now).1 = 0 ↔
      (512 < n ∨ cap < 12 + n + (if 0 < n then 4 else 0))) ∧
    (cap < 12 + n + (if 0 < n then 4 else 0) →
      (build_ctp_data_packet out cap payload n s w now).2 = out) ∧
    ((build_ctp_data_packet out cap payload n s w now).1 ≠ 0 →
      12 ≤ (build_ctp_data_packet out cap payload n s w now).1) := by
  refine ⟨?_, build_snd_of_too_small out cap payload n s w now, ?_⟩
  · have hiff := build_ok_iff out cap payload n s w now
    constructor
    · intro h0
      by_contra hc
      refine hiff.2 ⟨?_, ?_⟩ h0
      · omega
      · split_ifs at hc ⊢ <;> omega
    · intro hc
      by_contra h0
      obtain ⟨a, b⟩ := hiff.1 h0
      split_ifs at hc b <;> omega
  · intro h0
    rw [build_fst] at h0 ⊢
    split_ifs at h0 ⊢ <;> omega

theorem build_zero_iff_error_witness :
    (build_ctp_data_packet stale 17 (some hi) 2 0 1 1700000000).1 = 0 ∧
    (build_ctp_data_packet stale 17 (some hi) 2 0 1 1700000000).2 = stale :=
  ⟨(build_zero_iff_error stale 17 (some hi) 2 0 1 1700000000).1.2 (Or.inr (by decide)),
   (build_zero_iff_error stale 17 (some hi) 2 0 1 1700000000).2.1 (by decide)⟩

/-! ## The checks of `parse_and_verify_ack` -/

theorem type_bits_eq (x : Nat) : u8 ((x >>> 6) &&& 0x03) = x / 64 % 4 := by
  have e : (x >>> 6) &&& 0x03 = x / 64 % 4 := by
    rw [Nat.shiftRight_eq_div_pow]
    exact Nat.and_pow_two_sub_one_eq_mod _ 2
  rw [e, u8]
  omega

theorem tr_bit_eq (x : Nat) : u8 ((x >>> 5) &&& 0x01) = x / 32 % 2 := by
  have e : (x >>> 5) &&& 0x01 = x / 32 % 2 := by
    rw [Nat.shiftRight_eq_div_pow]
    exact Nat.and_pow_two_sub_one_eq_mod _ 1
  rw [e, u8]
  omega

theorem window_bits_eq (x : Nat) : u8 (x &&& 0x1F) = x % 32 := by
  rw [and_31, u8]
  omega

/-- The verifier as a chain of four checks on arithmetic conditions. -/
theorem parse_eq (buf : Mem) (len : Nat) :
    parse_and_verify_ack buf len =
      if len < 12 then .error .TooShort
      else if buf 0 / 64 % 4 ≠ 2 then .error .WrongType
      else if buf 0 / 32 % 2 ≠ 0 then .error .InvalidFlag
      else if read_u32_be buf 8 ≠ u32 (crc32 0 (some (header_for_crc buf))) then
        .error .ChecksumMismatch
      else .ok (buf 0 % 32, buf 1) := by
  unfold parse_and_verify_ack
  simp only [type_bits_eq, tr_bit_eq, window_bits_eq, CTP_HEADER_LEN, CTP_PTYPE_ACK]
  rfl

/-- The big-endian value read from four bytes. -/
theorem read_u32_be_eq (m : Mem) (p : Nat) (h0 : m p < 256) (h1 : m (p + 1) < 256)
    (h2 : m (p + 2) < 256) (h3 : m (p + 3) < 256) :
    read_u32_be m p = m p * 16777216 + m (p + 1) * 65536 + m (p + 2) * 256 + m (p + 3) := by
  unfold read_u32_be
  simp only [u32, Nat.shiftLeft_eq, Nat.reducePow]
  have e1 : m p % 4294967296 * 16777216 % 4294967296 = 2 ^ 24 * m p := by omega
  have e2 : m (p + 1) % 4294967296 * 65536 % 4294967296 = 2 ^ 16 * m (p + 1) := by omega
  have e3 : m (p + 2) % 4294967296 * 256 % 4294967296 = 2 ^ 8 * m (p + 2) := by omega
  have e4 : m (p + 3) % 4294967296 = m (p + 3) := by omega
  rw [e1, e2, e3, e4]
  have a1 : 2 ^ 24 * m p ||| 2 ^ 16 * m (p + 1) = 2 ^ 16 * (256 * m p + m (p + 1)) := by
    have k := Nat.mul_add_lt_is_or (show 2 ^ 16 * m (p + 1) < 2 ^ 24 by omega) (m p)
    rw [← k]; omega
  have a2 : 2 ^ 16 * (256 * m p + m (p + 1)) ||| 2 ^ 8 * m (p + 2)
      = 2 ^ 8 * (65536 * m p + 256 * m (p + 1) + m (p + 2)) := by
    have k := Nat.mul_add_lt_is_or (show 2 ^ 8 * m (p + 2) < 2 ^ 16 by omega)
      (256 * m p + m (p + 1))
    rw [← k]; omega
  have a3 : 2 ^ 8 * (65536 * m p + 256 * m (p + 1) + m (p + 2)) ||| m (p + 3)
      = 16777216 * m p + 65536 * m (p + 1) + 256 * m (p + 2) + m (p + 3) := by
    have k := Nat.mul_add_lt_is_or (show m (p + 3) < 2 ^ 8 by omega)
      (65536 * m p + 256 * m (p + 1) + m (p + 2))
    rw [← k]; omega
  rw [a1, a2, a3]
  omega

/-! ## The claims on `parse_and_verify_ack` -/

/-- C8: on a buffer of bytes, `parse_and_verify_ack` succeeds exactly when the length is at
least 12, bits 7-6 of byte 0 are ACK (2), bit 5 of byte 0 is 0, and the big-endian 32-bit
value of bytes 8..11 is the CRC-32 of bytes 0..7 with bit 5 of byte 0 cleared; on success it
returns the window `byte 0 & 0x1F`, which is below 32, and the sequence number `byte 1`. -/
theorem parse_ok_iff (buf : Mem) (len : Nat) (hb : ∀ i, buf i < 256) :
    ((∃ r, parse_and_verify_ack buf len = .ok r) ↔
      (12 ≤ len ∧ buf 0 / 64 % 4 = CTP_PTYPE_ACK ∧ buf 0 / 32 % 2 = 0 ∧
        buf 8 * 16777216 + buf 9 * 65536 + buf 10 * 256 + buf 11 =
          crc32 0 (some [buf 0 &&& 0xDF, buf 1, buf 2, buf 3, buf 4, buf 5, buf 6, buf 7]))) ∧
    (∀ r, parse_and_verify_ack buf len = .ok r →
      r = (buf 0 &&& 0x1F, buf 1) ∧ r.1 < 32) := by
  have hr0 : buf 0 &&& 0xDF < 256 := lt_of_le_of_lt Nat.and_le_right (by decide)
  have hlt : crc32 0 (some [buf 0 &&& 0xDF, buf 1, buf 2, buf 3, buf 4, buf 5, buf 6, buf 7])
      < 4294967296 := by
    apply crc32_lt
    intro b hb'
    simp only [List.mem_cons, List.mem_singleton, List.not_mem_nil, or_false] at hb'
    rcases hb' with e | e | e | e | e | e | e | e <;> subst e
    · exact hr0
    all_goals exact hb _
  have hread : read_u32_be buf 8 = buf 8 * 16777216 + buf 9 * 65536 + buf 10 * 256 + buf 11 :=
    read_u32_be_eq buf 8 (hb _) (hb _) (hb _) (hb _)
  rw [parse_eq, hread, header_for_crc_eq, u8_of_lt hr0, u32_of_lt hlt, and_31]
  simp only [CTP_PTYPE_ACK]
  constructor
  · constructor
    · rintro ⟨r, hr⟩
      split_ifs at hr with c1 c2 c3 c4
      exact ⟨by omega, by omega, by omega, by omega⟩
    · rintro ⟨c1, c2, c3, c4⟩
      refine ⟨(buf 0 % 32, buf 1), ?_⟩
      rw [if_neg (by omega), if_neg (by omega), if_neg (by omega), if_neg (by omega)]
  · intro r hr
    split_ifs at hr with c1 c2 c3 c4
    have e := Except.ok.inj hr
    subst e
    exact ⟨rfl, Nat.mod_lt _ (by decide)⟩

set_option maxRecDepth 8000 in
theorem parse_ok_iff_witness :
    (∀ i, i < 12 → ack_3_9 i < 256) ∧
    (∃ r, parse_and_verify_ack ack_3_9 12 = .ok r) ∧
    parse_and_verify_ack ack_3_9 12 = .ok (3, 9) := by
  have hb : ∀ i, ack_3_9 i < 256 := by
    intro i
    by_cases hi : i < 12
    · revert i; decide
    · have e : ack_3_9 i = 0 := by
        unfold ack_3_9
        exact List.getD_eq_default _ _ (by simpa using hi)
      omega
  refine ⟨fun i _ => hb i, (parse_ok_iff ack_3_9 12 hb).1.2 (by decide), by decide⟩

/-- C9: `parse_and_verify_ack` rejects in this order: a length below 12 is TooShort; with
a length of at least 12, type bits other than ACK are WrongType whatever the TR bit and the
checksum; with type ACK, a TR bit of 1 is InvalidFlag whatever the checksum; and
ChecksumMismatch is reported exactly when length, type and TR pass and the stored checksum
differs from the recomputed one. -/
theorem parse_rejection_order (buf : Mem) (len : Nat) :
    (len < 12 → parse_and_verify_ack buf len = .error .TooShort) ∧
    (12 ≤ len → buf 0 / 64 % 4 ≠ CTP_PTYPE_ACK →
      parse_and_verify_ack buf len = .error .WrongType) ∧
    (12 ≤ len → buf 0 / 64 % 4 = CTP_PTYPE_ACK → buf 0 / 32 % 2 = 1 →
      parse_and_verify_ack buf len = .error .InvalidFlag) ∧
    (parse_and_verify_ack buf len = .error .ChecksumMismatch ↔
      (12 ≤ len ∧ buf 0 / 64 % 4 = CTP_PTYPE_ACK ∧ buf 0 / 32 % 2 = 0 ∧
        read_u32_be buf 8 ≠ u32 (crc32 0 (some (header_for_crc buf))))) := by
  rw [parse_eq]
  simp only [CTP_PTYPE_ACK]
  refine ⟨?_, ?_, ?_, ?_, ?_⟩
  · intro h
    rw [if_pos h]
  · intro h1 h2
    rw [if_neg (by omega), if_pos h2]
  · intro h1 h2 h3
    rw [if_neg (by omega), if_neg (by omega), if_pos (by omega)]
  · intro h
    split_ifs at h with c1 c2 c3 c4
    · simp at h
    · simp at h
    · simp at h
    · exact ⟨by omega, by omega, by omega, c4⟩
  · rintro ⟨c1, c2, c3, c4⟩
    rw [if_neg (by omega), if_neg (by omega), if_neg (by omega), if_pos c4]

set_option maxRecDepth 8000 in
theorem parse_rejection_order_witness :
    parse_and_verify_ack ack_3_9 11 = .error .TooShort ∧
    parse_and_verify_ack (store (fun _ => 0) 0 0x61) 12 = .error .WrongType ∧
    parse_and_verify_ack (store (fun _ => 0) 0 0xA3) 12 = .error .InvalidFlag ∧
    parse_and_verify_ack (store (fun _ => 0) 0 0x83) 12 = .error .ChecksumMismatch :=
  ⟨(parse_rejection_order ack_3_9 11).1 (by decide),
   (parse_rejection_order (store (fun _ => 0) 0 0x61) 12).2.1 (by decide) (by decide),
   (parse_rejection_order (store (fun _ => 0) 0 0xA3) 12).2.2.1 (by decide) (by decide)
     (by decide),
   (parse_rejection_order (store (fun _ => 0) 0 0x83) 12).2.2.2.2 (by decide)⟩

/-- C10: for every window `w` in 0..31, every sequence number `s` and every content of
bytes 2..7, the header with byte 0 = `(ACK << 6) | w`, byte 1 = `s` and bytes 8..11 holding
the checksum computed and written as `build_ctp_data_packet` does is accepted by
`parse_and_verify_ack`, which returns exactly `(w, s)`. -/
theorem ack_round_trip (buf : Mem) (len w s : Nat) (hlen : 12 ≤ len) (hw : w < 32) :
    let hdr := store (store buf 0 ((CTP_PTYPE_ACK <<< 6) ||| w)) 1 s
    let ack := put_u32_be hdr 8 (u32 (crc32 (crc32 0 none) (some (header_for_crc hdr))))
    parse_and_verify_ack ack len = .ok (w, s) := by
  intro hdr ack
  have key : ∀ x < 32, ((CTP_PTYPE_ACK <<< 6) ||| x) / 64 % 4 = 2 ∧
      ((CTP_PTYPE_ACK <<< 6) ||| x) / 32 % 2 = 0 ∧ ((CTP_PTYPE_ACK <<< 6) ||| x) % 32 = x := by
    decide
  obtain ⟨k1, k2, k3⟩ := key w hw
  have a0 : ack 0 = (CTP_PTYPE_ACK <<< 6) ||| w := by
    simp [ack, hdr, put_u32_be_at, store]
  have a1 : ack 1 = s := by
    simp [ack, hdr, put_u32_be_at, store]
  have hh : header_for_crc ack = header_for_crc hdr := by
    simp [header_for_crc_eq, ack, put_u32_be_at]
  have hrd : read_u32_be ack 8 = u32 (crc32 0 (some (header_for_crc hdr))) := by
    have e : crc32 (crc32 0 none) (some (header_for_crc hdr))
        = crc32 0 (some (header_for_crc hdr)) := rfl
    rw [← e]
    exact read_put_u32_be hdr 8 _ (u32_lt _)
  rw [parse_eq, hh, hrd, a0, a1, k1, k2, k3]
  rw [if_neg (by omega), if_neg (by simp), if_neg (by simp), if_neg (by simp)]

set_option maxRecDepth 8000 in
theorem ack_round_trip_witness :
    (12 ≤ 12 ∧ 3 < 32) ∧
    bytes (put_u32_be (store (store stale 0 ((CTP_PTYPE_ACK <<< 6) ||| 3)) 1 9) 8
      (u32 (crc32 (crc32 0 none) (some (header_for_crc
        (store (store stale 0 ((CTP_PTYPE_ACK <<< 6) ||| 3)) 1 9)))))) 0 2 = [0x83, 9] ∧
    parse_and_verify_ack
      (put_u32_be (store (store stale 0 ((CTP_PTYPE_ACK <<< 6) ||| 3)) 1 9) 8
        (u32 (crc32 (crc32 0 none) (some (header_for_crc
          (store (store stale 0 ((CTP_PTYPE_ACK <<< 6) ||| 3)) 1 9)))))) 12 = .ok (3, 9) :=
  ⟨by decide, by decide, ack_round_trip stale 12 3 9 (by decide) (by decide)⟩

/-! ## The CRC-32 register is linear over exclusive or -/

theorem crc32_bit_xor (a b : Nat) : crc32_bit (a ^^^ b) = crc32_bit a ^^^ crc32_bit b := by
  unfold crc32_bit
  simp only [Nat.shiftRight_eq_div_pow, pow_one, Nat.xor_div_two]
  by_cases ha : a % 2 = 1 <;> by_cases hb : b % 2 = 1
  · have hab : ¬ (a ^^^ b) % 2 = 1 := by
      rw [Nat.xor_mod_two_eq_one]; simp [ha, hb]
    rw [if_neg hab, if_pos ha, if_pos hb]
    rw [Nat.xor_assoc, Nat.xor_comm 3988292384, Nat.xor_assoc, Nat.xor_self, Nat.xor_zero]
  · have hab : (a ^^^ b) % 2 = 1 := by
      rw [Nat.xor_mod_two_eq_one]; simp [ha, hb]
    rw [if_pos hab, if_pos ha, if_neg hb]
    rw [Nat.xor_assoc, Nat.xor_assoc, Nat.xor_comm (b / 2)]
  · have hab : (a ^^^ b) % 2 = 1 := by
      rw [Nat.xor_mod_two_eq_one]; simp [ha, hb]
    rw [if_pos hab, if_neg ha, if_pos hb, Nat.xor_assoc]
  · have hab : ¬ (a ^^^ b) % 2 = 1 := by
      rw [Nat.xor_mod_two_eq_one]; simp [ha, hb]
    rw [if_neg hab, if_neg ha, if_neg hb]

theorem crc32_bit_iterate_xor (k a b : Nat) :
    crc32_bit^[k] (a ^^^ b) = crc32_bit^[k] a ^^^ crc32_bit^[k] b := by
  induction k generalizing a b with
  | zero => rfl
  | succ k ih =>
    rw [Function.iterate_succ_apply, Function.iterate_succ_apply, Function.iterate_succ_apply,
      crc32_bit_xor, ih]

theorem crc32_byte_xor_left (x d a : Nat) :
    crc32_byte (x ^^^ d) a = crc32_byte x a ^^^ crc32_bit^[8] d := by
  unfold crc32_byte
  rw [← crc32_bit_iterate_xor, Nat.xor_assoc, Nat.xor_comm d a, ← Nat.xor_assoc]

theorem crc32_byte_xor_right (x a d : Nat) :
    crc32_byte x (a ^^^ d) = crc32_byte x a ^^^ crc32_bit^[8] d := by
  unfold crc32_byte
  rw [← crc32_bit_iterate_xor, Nat.xor_assoc]

theorem foldl_crc32_byte_xor (l : List Nat) (x d : Nat) :
    l.foldl crc32_byte (x ^^^ d) = l.foldl crc32_byte x ^^^ crc32_bit^[8 * l.length] d := by
  induction l generalizing x d with
  | nil => rfl
  | cons a l ih =>
    rw [List.foldl_cons, List.foldl_cons, crc32_byte_xor_left, ih, List.length_cons,
      Nat.mul_succ, Function.iterate_add_apply]

/-- A difference `d` in one byte shows in the register as `d` shifted through. -/
theorem foldl_crc32_byte_flip (l1 l2 : List Nat) (x a d : Nat) :
    (l1 ++ (a ^^^ d) :: l2).foldl crc32_byte x =
      (l1 ++ a :: l2).foldl crc32_byte x ^^^ crc32_bit^[8 * (l2.length + 1)] d := by
  rw [List.foldl_append, List.foldl_append, List.foldl_cons, List.foldl_cons,
    crc32_byte_xor_right, foldl_crc32_byte_xor, Nat.mul_succ, Function.iterate_add_apply]

theorem crc32_bit_ne_zero {c : Nat} (h0 : c ≠ 0) (h : c < 4294967296) : crc32_bit c ≠ 0 := by
  unfold crc32_bit
  rw [Nat.shiftRight_eq_div_pow]
  split_ifs with hc
  · rw [Ne, Nat.xor_eq_zero]
    omega
  · omega

theorem crc32_bit_iterate_ne_zero (k : Nat) {c : Nat} (h0 : c ≠ 0) (h : c < 4294967296) :
    crc32_bit^[k] c ≠ 0 := by
  induction k generalizing c with
  | zero => simpa using h0
  | succ k ih =>
    rw [Function.iterate_succ_apply]
    exact ih (crc32_bit_ne_zero h0 h) (crc32_bit_lt h)

/-- The CRC-32 detects a change confined to one byte of the message. -/
theorem crc32_flip_ne (crc : Nat) (l1 l2 : List Nat) (a d : Nat) (h0 : d ≠ 0)
    (h : d < 4294967296) :
    crc32 crc (some (l1 ++ (a ^^^ d) :: l2)) ≠ crc32 crc (some (l1 ++ a :: l2)) := by
  unfold crc32
  simp only
  rw [foldl_crc32_byte_flip, Ne, Nat.xor_left_inj]
  intro e
  have e2 : (l1 ++ a :: l2).foldl crc32_byte (u32 crc ^^^ 4294967295)
      ^^^ crc32_bit^[8 * (l2.length + 1)] d =
      (l1 ++ a :: l2).foldl crc32_byte (u32 crc ^^^ 4294967295) ^^^ 0 := by
    rw [e, Nat.xor_zero]
  exact crc32_bit_iterate_ne_zero _ h0 h (Nat.xor_right_inj.1 e2)

/-! ## Bit flips in the header -/

theorem one_shiftLeft_lt {k : Nat} (hk : k < 8) : 1 <<< k < 256 := by
  interval_cases k <;> decide

theorem one_shiftLeft_ne_zero (k : Nat) : 1 <<< k ≠ 0 := by
  rw [Nat.one_shiftLeft]
  exact Nat.pos_iff_ne_zero.1 (Nat.two_pow_pos k)

theorem flip_bit_same (m : Mem) (j k : Nat) : flip_bit m j k j = m j ^^^ (1 <<< k) := by
  simp [flip_bit, store]

theorem flip_bit_other (m : Mem) (j k i : Nat) (h : i ≠ j) : flip_bit m j k i = m i := by
  simp [flip_bit, store, h]

theorem flip_bit_lt (m : Mem) (j k i : Nat) (hk : k < 8) (h : m i < 256) :
    flip_bit m j k i < 256 := by
  by_cases e : i = j
  · subst e
    rw [flip_bit_same]
    exact Nat.xor_lt_two_pow (n := 8) h (one_shiftLeft_lt hk)
  · rw [flip_bit_other _ _ _ _ e]
    exact h

theorem header_for_crc_lt (m : Mem) (hm : ∀ i, i < 8 → m i < 256) :
    ∀ b ∈ header_for_crc m, b < 256 := by
  intro b hb
  rw [header_for_crc_eq] at hb
  simp only [List.mem_cons, List.mem_singleton, List.not_mem_nil, or_false] at hb
  rcases hb with e | e | e | e | e | e | e | e <;> subst e
  · exact u8_lt _
  all_goals exact hm _ (by decide)

/-- The TR bit of byte 0 does not reach the bytes handed to the CRC. -/
theorem header_for_crc_flip_tr (m : Mem) :
    header_for_crc (flip_bit m 0 5) = header_for_crc m := by
  rw [header_for_crc_eq, header_for_crc_eq, flip_bit_same,
    flip_bit_other _ _ _ 1 (by decide), flip_bit_other _ _ _ 2 (by decide),
    flip_bit_other _ _ _ 3 (by decide), flip_bit_other _ _ _ 4 (by decide),
    flip_bit_other _ _ _ 5 (by decide), flip_bit_other _ _ _ 6 (by decide),
    flip_bit_other _ _ _ 7 (by decide), Nat.and_xor_distrib_right]
  have e : (1 <<< 5) &&& 0xDF = 0 := by decide
  rw [e, Nat.xor_zero]

/-- Byte 0 as handed to the CRC, after flipping one of its bits other than bit 5. -/
theorem first_byte_flip (x k : Nat) (hk : k < 8) (h5 : k ≠ 5) :
    u8 ((x ^^^ (1 <<< k)) &&& 0xDF) = u8 (x &&& 0xDF) ^^^ (1 <<< k) := by
  have e : (1 <<< k) &&& 0xDF = 1 <<< k := by
    interval_cases k <;> first | decide | exact absurd rfl h5
  have hx : x &&& 0xDF < 2 ^ 8 := lt_of_le_of_lt Nat.and_le_right (by decide)
  have hk2 : 1 <<< k < 2 ^ 8 := one_shiftLeft_lt hk
  rw [Nat.and_xor_distrib_right, e, u8_of_lt (Nat.xor_lt_two_pow hx hk2), u8_of_lt hx]

/-- Flipping one bit of bytes 0..7, other than bit 5 of byte 0, changes the CRC-32 of the
header bytes handed to the CRC. -/
theorem header_crc_flip_ne (m : Mem) (j k : Nat) (hj : j < 8) (hk : k < 8)
    (hjk : ¬ (j = 0 ∧ k = 5)) :
    crc32 0 (some (header_for_crc (flip_bit m j k))) ≠ crc32 0 (some (header_for_crc m)) := by
  have h0 := one_shiftLeft_ne_zero k
  have hlt : 1 <<< k < 4294967296 := lt_trans (one_shiftLeft_lt hk) (by decide)
  rw [header_for_crc_eq, header_for_crc_eq]
  interval_cases j
  · have h5 : k ≠ 5 := fun e => hjk ⟨rfl, e⟩
    simp only [flip_bit_same, flip_bit_other _ 0 _ _ (by decide : (1 : Nat) ≠ 0),
      flip_bit_other _ 0 _ _ (by decide : (2 : Nat) ≠ 0),
      flip_bit_other _ 0 _ _ (by decide : (3 : Nat) ≠ 0),
      flip_bit_other _ 0 _ _ (by decide : (4 : Nat) ≠ 0),
      flip_bit_other _ 0 _ _ (by decide : (5 : Nat) ≠ 0),
      flip_bit_other _ 0 _ _ (by decide : (6 : Nat) ≠ 0),
      flip_bit_other _ 0 _ _ (by decide : (7 : Nat) ≠ 0), first_byte_flip _ _ hk h5]
    exact crc32_flip_ne 0 [] [m 1, m 2, m 3, m 4, m 5, m 6, m 7] _ _ h0 hlt
  · simp [flip_bit, store]
    exact crc32_flip_ne 0 [u8 (m 0 &&& 223)] [m 2, m 3, m 4, m 5, m 6, m 7] _ _ h0 hlt
  · simp [flip_bit, store]
    exact crc32_flip_ne 0 [u8 (m 0 &&& 223), m 1] [m 3, m 4, m 5, m 6, m 7] _ _ h0 hlt
  · simp [flip_bit, store]
    exact crc32_flip_ne 0 [u8 (m 0 &&& 223), m 1, m 2] [m 4, m 5, m 6, m 7] _ _ h0 hlt
  · simp [flip_bit, store]
    exact crc32_flip_ne 0 [u8 (m 0 &&& 223), m 1, m 2, m 3] [m 5, m 6, m 7] _ _ h0 hlt
  · simp [flip_bit, store]
    exact crc32_flip_ne 0 [u8 (m 0 &&& 223), m 1, m 2, m 3, m 4] [m 6, m 7] _ _ h0 hlt
  · simp [flip_bit, store]
    exact crc32_flip_ne 0 [u8 (m 0 &&& 223), m 1, m 2, m 3, m 4, m 5] [m 7] _ _ h0 hlt
  · simp [flip_bit, store]
    exact crc32_flip_ne 0 [u8 (m 0 &&& 223), m 1, m 2, m 3, m 4, m 5, m 6] [] _ _ h0 hlt

theorem read_u32_be_congr (a b : Mem) (p : Nat) (h0 : a p = b p) (h1 : a (p + 1) = b (p + 1))
    (h2 : a (p + 2) = b (p + 2)) (h3 : a (p + 3) = b (p + 3)) :
    read_u32_be a p = read_u32_be b p := by
  unfold read_u32_be
  rw [h0, h1, h2, h3]

theorem read_u32_be_flip (m : Mem) (j k : Nat) (hj : j < 8) :
    read_u32_be (flip_bit m j k) 8 = read_u32_be m 8 := by
  apply read_u32_be_congr <;> exact flip_bit_other _ _ _ _ (by omega)

/-- The header bytes written by a successful call are bytes. -/
theorem build_header_lt (out : Mem) (cap : Nat) (payload : Option Mem) (n s w : Nat)
    (now : Int) (h : (build_ctp_data_packet out cap payload n s w now).1 ≠ 0) :
    ∀ i, i < 8 → (build_ctp_data_packet out cap payload n s w now).2 i < 256 := by
  intro i hi
  have hb0 := build_byte0 out cap payload n s w now h
  obtain ⟨h1, h2, h3, h4, h5, h6, h7⟩ := build_bytes_1_7 out cap payload n s w now h
  have hw : w &&& 0x1F < 2 ^ 8 := lt_of_le_of_lt Nat.and_le_right (by decide)
  interval_cases i
  · rw [hb0]; exact Nat.or_lt_two_pow (n := 8) (by decide) hw
  · rw [h1]; exact u8_lt _
  · rw [h2]; exact u8_lt _
  · rw [h3]; exact u8_lt _
  · rw [h4]; exact u8_lt _
  · rw [h5]; exact u8_lt _
  · rw [h6]; exact u8_lt _
  · rw [h7]; exact u8_lt _

/-- The checksum stored by a successful call is the one the verifier recomputes. -/
theorem build_stored_checksum (out : Mem) (cap : Nat) (payload : Option Mem) (n s w : Nat)
    (now : Int) (h : (build_ctp_data_packet out cap payload n s w now).1 ≠ 0) :
    read_u32_be (build_ctp_data_packet out cap payload n s w now).2 8 =
      u32 (crc32 0 (some (header_for_crc (build_ctp_data_packet out cap payload n s w now).2)))
    := by
  obtain ⟨h8, h9, h10, h11⟩ := build_bytes_8_11 out cap payload n s w now h
  rw [← read_put_u32_be (build_ctp_data_packet out cap payload n s w now).2 8
    (u32 (crc32 0 (some (header_for_crc (build_ctp_data_packet out cap payload n s w now).2))))
    (u32_lt _)]
  apply read_u32_be_congr
  · rw [h8]; simp [put_u32_be_at]
  · rw [h9]; simp [put_u32_be_at]
  · rw [h10]; simp [put_u32_be_at]
  · rw [h11]; simp [put_u32_be_at]

theorem xor_div_32 (a b : Nat) : (a ^^^ b) / 32 = a / 32 ^^^ b / 32 := by
  have e : ∀ y : Nat, y / 32 = y / 2 / 2 / 2 / 2 / 2 := by
    intro y; omega
  rw [e, e a, e b]
  simp only [Nat.xor_div_two]

/-- Flipping bit 5 changes the TR bit. -/
theorem tr_bit_flip (x : Nat) : (x ^^^ (1 <<< 5)) / 32 % 2 = (x / 32 + 1) % 2 := by
  have e : (1 <<< 5) / 32 = 1 := by decide
  rw [xor_div_32, e, Nat.xor_mod_two_eq]

/-! ## Claims on the header checksum -/

/-- C11: flipping one bit of bytes 0..7 of a segment built by `build_ctp_data_packet`,
other than bit 5 of byte 0, makes the recomputed header checksum differ from the value
stored in bytes 8..11; and a buffer of bytes accepted by `parse_and_verify_ack` is rejected
after any single-bit flip in bytes 0..7. -/
theorem checksum_sensitivity :
    (∀ (out : Mem) (cap : Nat) (payload : Option Mem) (n s w : Nat) (now : Int),
      (build_ctp_data_packet out cap payload n s w now).1 ≠ 0 →
      ∀ j k, j < 8 → k < 8 → ¬ (j = 0 ∧ k = 5) →
        u32 (crc32 (crc32 0 none) (some (header_for_crc
          (flip_bit (build_ctp_data_packet out cap payload n s w now).2 j k)))) ≠
        read_u32_be (flip_bit (build_ctp_data_packet out cap payload n s w now).2 j k) 8) ∧
    (∀ (buf : Mem) (len : Nat), (∀ i, buf i < 256) →
      (∃ r, parse_and_verify_ack buf len = .ok r) →
      ∀ j k, j < 8 → k < 8 → ∀ r, parse_and_verify_ack (flip_bit buf j k) len ≠ .ok r) := by
  constructor
  · intro out cap payload n s w now h j k hj hk hjk
    have hlt := build_header_lt out cap payload n s w now h
    have hA := crc32_lt 0 _ (header_for_crc_lt _ hlt)
    have hB := crc32_lt 0 _ (header_for_crc_lt _
      (fun i hi => flip_bit_lt _ j k i hk (hlt i hi)))
    have e : crc32 (crc32 0 none) (some (header_for_crc
        (flip_bit (build_ctp_data_packet out cap payload n s w now).2 j k))) =
        crc32 0 (some (header_for_crc
        (flip_bit (build_ctp_data_packet out cap payload n s w now).2 j k))) := rfl
    rw [e, read_u32_be_flip _ _ _ hj, build_stored_checksum out cap payload n s w now h,
      u32_of_lt hA, u32_of_lt hB]
    exact header_crc_flip_ne _ j k hj hk hjk
  · intro buf len hb hok j k hj hk r hr
    obtain ⟨r0, hr0⟩ := hok
    have hA := crc32_lt 0 _ (header_for_crc_lt _ (fun i _ => hb i))
    have hB := crc32_lt 0 _ (header_for_crc_lt _
      (fun i _ => flip_bit_lt buf j k i hk (hb i)))
    rw [parse_eq] at hr0 hr
    rw [read_u32_be_flip _ _ _ hj, u32_of_lt hB] at hr
    rw [u32_of_lt hA] at hr0
    split_ifs at hr0 with a1 a2 a3 a4
    split_ifs at hr with b2 b3 b4
    by_cases hjk : j = 0 ∧ k = 5
    · obtain ⟨rfl, rfl⟩ := hjk
      have key := tr_bit_flip (buf 0)
      rw [flip_bit_same] at b3
      omega
    · have hne := header_crc_flip_ne buf j k hj hk hjk
      apply hne
      rw [← not_ne_iff.1 b4, ← not_ne_iff.1 a4]

set_option maxRecDepth 100000 in
theorem checksum_sensitivity_witness :
    (build_ctp_data_packet stale 18 (some hi) 2 0 1 1700000000).1 ≠ 0 ∧
    (u32 (crc32 (crc32 0 none) (some (header_for_crc
      (flip_bit (build_ctp_data_packet stale 18 (some hi) 2 0 1 1700000000).2 3 0)))) ≠
      read_u32_be
        (flip_bit (build_ctp_data_packet stale 18 (some hi) 2 0 1 1700000000).2 3 0) 8) ∧
    (∃ r, parse_and_verify_ack ack_3_9 12 = .ok r) ∧
    parse_and_verify_ack (flip_bit ack_3_9 0 5) 12 = .error .InvalidFlag ∧
    parse_and_verify_ack (flip_bit ack_3_9 1 7) 12 = .error .ChecksumMismatch :=
  ⟨by decide,
   checksum_sensitivity.1 stale 18 (some hi) 2 0 1 1700000000 (by decide) 3 0 (by decide)
     (by decide) (by decide),
   ⟨(3, 9), by decide⟩, by decide, by decide⟩

/-- C12: the header checksum does not depend on the TR bit: the bytes handed to the CRC,
and so the CRC-32 computed by both routines, are the same for a header and for the header
with bit 5 of byte 0 flipped. -/
theorem checksum_ignores_tr (m : Mem) :
    header_for_crc (flip_bit m 0 5) = header_for_crc m ∧
    crc32 (crc32 0 none) (some (header_for_crc (flip_bit m 0 5))) =
      crc32 (crc32 0 none) (some (header_for_crc m)) ∧
    flip_bit m 0 5 0 / 32 % 2 ≠ m 0 / 32 % 2 := by
  refine ⟨header_for_crc_flip_tr m, by rw [header_for_crc_flip_tr], ?_⟩
  rw [flip_bit_same, tr_bit_flip]
  omega

set_option maxRecDepth 8000 in
theorem checksum_ignores_tr_witness :
    (flip_bit ack_3_9 0 5) 0 = 0xA3 ∧
    crc32 (crc32 0 none) (some (header_for_crc (flip_bit ack_3_9 0 5))) =
      crc32 (crc32 0 none) (some (header_for_crc ack_3_9)) :=
  ⟨by decide, (checksum_ignores_tr ack_3_9).2.1⟩

/-! ## Frame of `build_ctp_data_packet` -/

theorem put_u32_be_other (m : Mem) (p v j : Nat) (h : j < p ∨ p + 3 < j) :
    put_u32_be m p v j = m j := by
  rw [put_u32_be_at, if_neg (by omega), if_neg (by omega), if_neg (by omega),
    if_neg (by omega)]

theorem put_u16_be_other (m : Mem) (p v j : Nat) (h : j < p ∨ p + 1 < j) :
    put_u16_be m p v j = m j := by
  rw [put_u16_be_at, if_neg (by omega), if_neg (by omega)]

/-- With a null payload pointer nothing is written from offset 12 on. -/
theorem build_none_frame (out : Mem) (cap n s w : Nat) (now : Int) (i : Nat) (hi : 12 ≤ i) :
    (build_ctp_data_packet out cap none n s w now).2 i = out i := by
  unfold build_ctp_data_packet
  simp only [CTP_MAX_PAYLOAD, CTP_HEADER_LEN, gt_iff_lt]
  split_ifs
  all_goals first
    | rfl
    | (dsimp only
       rw [put_u32_be_other _ _ _ _ (by omega), store_other _ _ _ _ (by omega),
         store_other _ _ _ _ (by omega), store_other _ _ _ _ (by omega),
         store_other _ _ _ _ (by omega), put_u32_be_other _ _ _ _ (by omega),
         put_u16_be_other _ _ _ _ (by omega), store_other _ _ _ _ (by omega),
         store_other _ _ _ _ (by omega)])

/-- Nothing is written at or after the total length. -/
theorem build_frame_ge (out : Mem) (cap : Nat) (payload : Option Mem) (n s w : Nat)
    (now : Int) (i : Nat) (hi : 12 + n + (if 0 < n then 4 else 0) ≤ i) :
    (build_ctp_data_packet out cap payload n s w now).2 i = out i := by
  have hi12 : 12 ≤ i := by omega
  rw [← build_none_frame out cap n s w now i hi12]
  cases payload with
  | none => rfl
  | some p =>
    by_cases h3 : 0 < n
    · rw [if_pos h3] at hi
      unfold build_ctp_data_packet
      simp only [CTP_MAX_PAYLOAD, CTP_HEADER_LEN, gt_iff_lt, h3, if_true]
      split_ifs with h1 h2
      · rfl
      · rfl
      · have e1 : ¬ (12 ≤ i ∧ i < 12 + n) := by omega
        have e2 : i ≠ 12 + n + 3 := by omega
        have e3 : i ≠ 12 + n + 2 := by omega
        have e4 : i ≠ 12 + n + 1 := by omega
        have e5 : i ≠ 12 + n := by omega
        simp only [put_u32_be_at (memcpy _ _ _ _), memcpy, e1, e2, e3, e4, e5, if_false]
    · unfold build_ctp_data_packet
      simp only [CTP_MAX_PAYLOAD, CTP_HEADER_LEN, gt_iff_lt, h3, if_false]

/-! ## Further claims on the two routines -/

/-- C13: `parse_and_verify_ack` looks only at the 12-byte header: on two buffers of length
at least 12, possibly of different lengths, that agree on bytes 0..11 it returns the same
verdict and the same window and sequence number. -/
theorem parse_header_only (b1 b2 : Mem) (l1 l2 : Nat) (h1 : 12 ≤ l1) (h2 : 12 ≤ l2)
    (hagree : ∀ i, i < 12 → b1 i = b2 i) :
    parse_and_verify_ack b1 l1 = parse_and_verify_ack b2 l2 := by
  have hh : header_for_crc b1 = header_for_crc b2 := by
    rw [header_for_crc_eq, header_for_crc_eq, hagree 0 (by decide), hagree 1 (by decide),
      hagree 2 (by decide), hagree 3 (by decide), hagree 4 (by decide), hagree 5 (by decide),
      hagree 6 (by decide), hagree 7 (by decide)]
  have hr : read_u32_be b1 8 = read_u32_be b2 8 :=
    read_u32_be_congr b1 b2 8 (hagree 8 (by decide)) (hagree 9 (by decide))
      (hagree 10 (by decide)) (hagree 11 (by decide))
  rw [parse_eq, parse_eq, hh, hr, hagree 0 (by decide), hagree 1 (by decide),
    if_neg (show ¬ l1 < 12 by omega), if_neg (show ¬ l2 < 12 by omega)]

set_option maxRecDepth 100000 in
theorem parse_header_only_witness :
    (12 ≤ 12 ∧ 12 ≤ 40 ∧ ∀ i, i < 12 → ack_len5 i = memcpy ack_len5 12 stale 28 i) ∧
    parse_and_verify_ack ack_len5 12 = parse_and_verify_ack (memcpy ack_len5 12 stale 28) 40 ∧
    parse_and_verify_ack ack_len5 12 = .ok (3, 9) :=
  ⟨by decide,
   parse_header_only ack_len5 (memcpy ack_len5 12 stale 28) 12 40 (by decide) (by decide)
     (by decide),
   by decide⟩

/-- C17: a successful call of `build_ctp_data_packet` returning `L` leaves every byte of the
output buffer at an index `≥ L` as it was; with a zero-length payload `L` is 12, so only
bytes 0..11 are written and no checksum2 follows. -/
theorem build_writes_only_segment (out : Mem) (cap : Nat) (payload : Option Mem)
    (n s w : Nat) (now : Int)
    (h : (build_ctp_data_packet out cap payload n s w now).1 ≠ 0) :
    (∀ i, (build_ctp_data_packet out cap payload n s w now).1 ≤ i →
      (build_ctp_data_packet out cap payload n s w now).2 i = out i) ∧
    (n = 0 → (build_ctp_data_packet out cap payload n s w now).1 = 12 ∧
      (build_ctp_data_packet out cap payload n s w now).2 1 = u8 s ∧
      ∀ i, 12 ≤ i → (build_ctp_data_packet out cap payload n s w now).2 i = out i) := by
  obtain ⟨hn, hcap⟩ := (build_ok_iff out cap payload n s w now).1 h
  have hfst : (build_ctp_data_packet out cap payload n s w now).1 =
      12 + n + (if 0 < n then 4 else 0) := by
    rw [build_fst, if_neg (by omega), if_neg (by omega)]
  constructor
  · intro i hi
    rw [hfst] at hi
    exact build_frame_ge out cap payload n s w now i hi
  · intro h0
    subst h0
    refine ⟨hfst, (build_bytes_1_7 out cap payload 0 s w now h).1, ?_⟩
    intro i hi
    exact build_frame_ge out cap payload 0 s w now i hi

theorem build_writes_only_segment_witness :
    (build_ctp_data_packet stale 528 none 0 7 1 1700000000).1 ≠ 0 ∧
    (build_ctp_data_packet stale 528 none 0 7 1 1700000000).1 = 12 ∧
    (build_ctp_data_packet stale 528 none 0 7 1 1700000000).2 1 = 0x07 ∧
    bytes (build_ctp_data_packet stale 528 none 0 7 1 1700000000).2 12 4
      = [0xAA, 0xAA, 0xAA, 0xAA] ∧
    (∀ i, (build_ctp_data_packet stale 528 none 0 7 1 1700000000).1 ≤ i →
      (build_ctp_data_packet stale 528 none 0 7 1 1700000000).2 i = stale i) :=
  ⟨by decide, by decide, by decide, by decide,
   (build_writes_only_segment stale 528 none 0 7 1 1700000000 (by decide)).1⟩

/-- C18: a segment built by `build_ctp_data_packet` is never accepted as an ACK: the
verifier applied to a successful output, with the returned length or any length of at least
12, fails on the type bits, although the stored checksum1 is the one it would recompute. -/
theorem build_output_not_ack (out : Mem) (cap : Nat) (payload : Option Mem) (n s w : Nat)
    (now : Int) (h : (build_ctp_data_packet out cap payload n s w now).1 ≠ 0) :
    parse_and_verify_ack (build_ctp_data_packet out cap payload n s w now).2
      (build_ctp_data_packet out cap payload n s w now).1 = .error .WrongType ∧
    (∀ len, 12 ≤ len →
      parse_and_verify_ack (build_ctp_data_packet out cap payload n s w now).2 len
        = .error .WrongType) ∧
    read_u32_be (build_ctp_data_packet out cap payload n s w now).2 8 =
      u32 (crc32 (crc32 0 none)
        (some (header_for_crc (build_ctp_data_packet out cap payload n s w now).2))) := by
  have hb0 := build_byte0 out cap payload n s w now h
  have key : ∀ x < 32, (0x40 ||| x) / 64 % 4 = 1 := by decide
  have hx : w % 32 < 32 := Nat.mod_lt _ (by decide)
  rw [and_31] at hb0
  have hty : (build_ctp_data_packet out cap payload n s w now).2 0 / 64 % 4 ≠ 2 := by
    rw [hb0, key _ hx]; decide
  have hall : ∀ len, 12 ≤ len →
      parse_and_verify_ack (build_ctp_data_packet out cap payload n s w now).2 len
        = .error .WrongType := by
    intro len hlen
    rw [parse_eq, if_neg (by omega), if_pos hty]
  have h12 : 12 ≤ (build_ctp_data_packet out cap payload n s w now).1 := by
    rw [build_fst] at h ⊢
    split_ifs at h ⊢ <;> omega
  exact ⟨hall _ h12, hall, build_stored_checksum out cap payload n s w now h⟩

set_option maxRecDepth 100000 in
theorem build_output_not_ack_witness :
    (build_ctp_data_packet stale 18 (some hi) 2 0 1 1700000000).1 ≠ 0 ∧
    parse_and_verify_ack (build_ctp_data_packet stale 18 (some hi) 2 0 1 1700000000).2 18
      = .error .WrongType :=
  ⟨by decide, (build_output_not_ack stale 18 (some hi) 2 0 1 1700000000 (by decide)).1⟩

/-- C19: called with a null payload pointer, a length `1 ≤ n ≤ 512` and enough capacity,
`build_ctp_data_packet` still returns `12 + n + 4` and writes `n` into the length field, but
writes nothing from offset 12 on: the payload area and the checksum2 field keep their
previous contents. -/
theorem build_null_payload (out : Mem) (cap n s w : Nat) (now : Int) (h1 : 1 ≤ n)
    (hn : n ≤ 512) (hcap : 12 + n + 4 ≤ cap) :
    (build_ctp_data_packet out cap none n s w now).1 = 12 + n + 4 ∧
    (build_ctp_data_packet out cap none n s w now).2 2 = n / 256 ∧
    (build_ctp_data_packet out cap none n s w now).2 3 = n % 256 ∧
    ∀ i, 12 ≤ i → (build_ctp_data_packet out cap none n s w now).2 i = out i := by
  have hpos : 0 < n := h1
  have hfst : (build_ctp_data_packet out cap none n s w now).1 = 12 + n + 4 := by
    rw [build_fst, if_neg (by omega), if_pos hpos, if_neg (by omega)]
  have hok : (build_ctp_data_packet out cap none n s w now).1 ≠ 0 := by
    rw [hfst]; omega
  obtain ⟨-, e2, e3, -⟩ := build_bytes_1_7 out cap none n s w now hok
  refine ⟨hfst, ?_, ?_, fun i hi => build_none_frame out cap n s w now i hi⟩
  · rw [e2]
    simp only [u8, u16, Nat.shiftRight_eq_div_pow, Nat.reducePow]
    omega
  · rw [e3]
    simp only [and_255, u8, u16]
    omega

theorem build_null_payload_witness :
    (1 ≤ 2 ∧ 2 ≤ 512 ∧ 12 + 2 + 4 ≤ 18) ∧
    (build_ctp_data_packet stale 18 none 2 0 1 1700000000).1 = 18 ∧
    bytes (build_ctp_data_packet stale 18 none 2 0 1 1700000000).2 2 2 = [0, 2] ∧
    bytes (build_ctp_data_packet stale 18 none 2 0 1 1700000000).2 12 6
      = [0xAA, 0xAA, 0xAA, 0xAA, 0xAA, 0xAA] :=
  ⟨by decide,
   (build_null_payload stale 18 2 0 1 1700000000 (by decide) (by decide) (by decide)).1,
   by decide, by decide⟩

/-! ## The sender routine: what its first part yields -/

theorem run_sender_setup_error (env : Env) (code : Int)
    (h : run_sender_setup env = .error code) : code = 1 ∨ code = 2 ∨ code = 3 := by
  unfold run_sender_setup at h
  simp only at h
  repeat' split at h
  all_goals first
    | (cases h; done)
    | (cases h; simp)

theorem run_sender_setup_ok (env : Env) (data : List Nat)
    (h : run_sender_setup env = .ok data) : data.length ≤ 512 := by
  unfold run_sender_setup at h
  simp only at h
  repeat' split at h
  all_goals first
    | (cases h; done)
    | (cases h; simp only [CTP_MAX_PAYLOAD] at *; omega)
theorem bytes_length (m : Mem) (p n : Nat) : (bytes m p n).length = n := by
  simp [bytes]

theorem build_528_ne_zero (out : Mem) (payload : Option Mem) (n s w : Nat) (now : Int)
    (hn : n ≤ 512) :
    (build_ctp_data_packet out (CTP_HEADER_LEN + CTP_MAX_PAYLOAD + 4) payload n s w now).1 ≠ 0
    := by
  rw [build_ok_iff]
  simp only [CTP_HEADER_LEN, CTP_MAX_PAYLOAD]
  constructor
  · exact hn
  · split_ifs <;> omega

theorem build_528_fin (out : Mem) (s w : Nat) (now : Int) :
    (build_ctp_data_packet out (CTP_HEADER_LEN + CTP_MAX_PAYLOAD + 4) none 0 s w now).1 = 12
    := by
  rw [build_fst]
  simp [CTP_HEADER_LEN, CTP_MAX_PAYLOAD]

/-- The runs of `run_sender`: its exit code and its calls on the socket, with what the
surroundings answered on the way. -/
theorem run_sender_outcome (env : Env) :
    ((run_sender env).2 = [] ∧
      ((run_sender env).1 = 1 ∨ (run_sender env).1 = 2 ∨ (run_sender env).1 = 3)) ∨
    (∃ seg1, (run_sender env).2 = [Event.sendto seg1] ∧ (run_sender env).1 = 5 ∧
      (env.sent_data < 0 ∨ env.sent_data.toNat ≠ seg1.length)) ∨
    (∃ seg1, (run_sender env).2 = [Event.sendto seg1, Event.recvfrom] ∧
      (run_sender env).1 = 6 ∧ env.sent_data = seg1.length ∧ env.recvd < 0) ∨
    (∃ seg1 e, (run_sender env).2 = [Event.sendto seg1, Event.recvfrom] ∧
      (run_sender env).1 = 7 ∧ env.sent_data = seg1.length ∧ 0 ≤ env.recvd ∧
      parse_and_verify_ack env.recv_buf env.recvd.toNat = .error e) ∨
    (∃ seg1 wd s sb,
      (run_sender env).2 = [Event.sendto seg1, Event.recvfrom,
        Event.sendto (bytes (build_ctp_data_packet sb (CTP_HEADER_LEN + CTP_MAX_PAYLOAD + 4)
          none 0 s 1 env.time_final).2 0 12)] ∧
      env.sent_data = seg1.length ∧ 0 ≤ env.recvd ∧
      parse_and_verify_ack env.recv_buf env.recvd.toNat = .ok (wd, s) ∧
      (((run_sender env).1 = 9 ∧ (env.sent_final < 0 ∨ env.sent_final.toNat ≠ 12)) ∨
       ((run_sender env).1 = 0 ∧ env.sent_final = 12))) := by
  cases h : run_sender_setup env with
  | error code =>
    left
    unfold run_sender
    rw [h]
    exact ⟨rfl, run_sender_setup_error env code h⟩
  | ok data =>
    right
    have hlen := run_sender_setup_ok env data h
    have hB := build_528_ne_zero env.send_buf
      (if data = [] then none else some (fun i => data.getD i 0)) data.length 0 1
      env.time_data hlen
    unfold run_sender
    rw [h]
    simp only
    generalize build_ctp_data_packet env.send_buf (CTP_HEADER_LEN + CTP_MAX_PAYLOAD + 4)
      (if data = [] then none else some (fun i => data.getD i 0)) data.length 0 1
      env.time_data = B at hB ⊢
    rw [if_neg hB]
    split_ifs with c1 c2
    · left
      refine ⟨_, rfl, rfl, ?_⟩
      rw [bytes_length]
      exact c1
    · right; left
      refine ⟨_, rfl, rfl, ?_, c2⟩
      rw [bytes_length]
      omega
    · right; right
      have hsent : env.sent_data = ((bytes B.2 0 B.1).length : Int) := by
        rw [bytes_length]
        omega
      cases hp : parse_and_verify_ack env.recv_buf env.recvd.toNat with
      | error e =>
        left
        exact ⟨_, e, rfl, rfl, hsent, by omega, rfl⟩
      | ok ws =>
        right
        obtain ⟨wd, s⟩ := ws
        simp only [build_528_fin, if_neg (show ¬ (12 : Nat) = 0 by decide)]
        split_ifs with c3
        · exact ⟨_, wd, s, _, rfl, hsent, by omega, rfl, Or.inl ⟨rfl, c3⟩⟩
        · exact ⟨_, wd, s, _, rfl, hsent, by omega, rfl, Or.inr ⟨rfl, by omega⟩⟩
theorem parse_toNat_of_neg (buf : Mem) (recvd : Int) (h : recvd < 0) :
    parse_and_verify_ack buf recvd.toNat = .error .TooShort := by
  have e : recvd.toNat = 0 := by omega
  rw [e, parse_eq, if_pos (by decide)]

/-! ## Claims on `run_sender` -/

/-- C14: in a run of `run_sender` that received a datagram accepted by
`parse_and_verify_ack` with sequence number `s` (a byte), the calls on the socket are the
first send, the receive and the send of the zero-length DATA segment built with sequence
number `s` and window 1: twelve bytes, byte 0 = `0x41`, byte 1 = `s`, bytes 2..3 = 0. -/
theorem final_segment_uses_ack_seqnum (env : Env) (wd s : Nat)
    (hrecv : Event.recvfrom ∈ (run_sender env).2)
    (hok : parse_and_verify_ack env.recv_buf env.recvd.toNat = .ok (wd, s))
    (hs : s < 256) :
    ∃ seg1 fin, (run_sender env).2 = [Event.sendto seg1, Event.recvfrom, Event.sendto fin] ∧
      fin.length = 12 ∧ fin.take 4 = [0x41, s, 0, 0] ∧
      ∃ sb, fin = bytes (build_ctp_data_packet sb (CTP_HEADER_LEN + CTP_MAX_PAYLOAD + 4)
        none 0 s 1 env.time_final).2 0 12 := by
  rcases run_sender_outcome env with ⟨h1, -⟩ | ⟨seg1, h1, -⟩ | ⟨seg1, -, -, -, h2⟩ |
    ⟨seg1, e, -, -, -, -, h2⟩ | ⟨seg1, wd2, s2, sb, h1, -, -, h2, -⟩
  · rw [h1] at hrecv
    simp at hrecv
  · rw [h1] at hrecv
    simp at hrecv
  · rw [parse_toNat_of_neg _ _ h2] at hok
    simp at hok
  · rw [h2] at hok
    simp at hok
  · rw [h2] at hok
    have e1 := Except.ok.inj hok
    have e2 : s2 = s := (Prod.mk.inj e1).2
    subst e2
    refine ⟨seg1, _, h1, bytes_length _ _ _, ?_, sb, rfl⟩
    have hne := build_528_ne_zero sb none 0 s2 1 env.time_final (by decide)
    have hb0 := build_byte0 _ _ _ _ _ _ _ hne
    obtain ⟨k1, k2, k3, -⟩ := build_bytes_1_7 _ _ _ _ _ _ _ hne
    have hfin : ∀ m : Mem, (bytes m 0 12).take 4 = [m 0, m 1, m 2, m 3] := fun _ => rfl
    rw [hfin, hb0, k1, k2, k3, u8_of_lt hs]
    rfl

set_option maxRecDepth 100000 in
theorem final_segment_uses_ack_seqnum_witness :
    (Event.recvfrom ∈ (run_sender env_ok).2 ∧
      parse_and_verify_ack env_ok.recv_buf env_ok.recvd.toNat = .ok (3, 9) ∧ 9 < 256) ∧
    (run_sender env_ok).2 =
      [Event.sendto [0x41, 0x00, 0x00, 0x00, 0x65, 0x53, 0xF1, 0x00, 0xEF, 0xB0, 0x5A, 0x3E],
       Event.recvfrom,
       Event.sendto [0x41, 0x09, 0x00, 0x00, 0x65, 0x53, 0xF1, 0x01, 0x0D, 0x2F, 0x2F, 0x7B]] ∧
    ∃ seg1 fin, (run_sender env_ok).2 =
        [Event.sendto seg1, Event.recvfrom, Event.sendto fin] ∧
      fin.length = 12 ∧ fin.take 4 = [0x41, 9, 0, 0] ∧
      ∃ sb, fin = bytes (build_ctp_data_packet sb (CTP_HEADER_LEN + CTP_MAX_PAYLOAD + 4)
        none 0 9 1 env_ok.time_final).2 0 12 :=
  ⟨by decide, by decide,
   final_segment_uses_ack_seqnum env_ok 3 9 (by decide) (by decide) (by decide)⟩

/-- C15 (what the code does): `run_sender` calls `recvfrom` at most once in a run; the run
on an empty input answered by a valid ACK sends both segments, exits with 0, and its only
calls on the socket are the first send, one receive and the final send. -/
theorem run_sender_single_receive :
    run_sender env_ok =
      (0, [Event.sendto [0x41, 0x00, 0x00, 0x00, 0x65, 0x53, 0xF1, 0x00, 0xEF, 0xB0, 0x5A, 0x3E],
       Event.recvfrom,
       Event.sendto [0x41, 0x09, 0x00, 0x00, 0x65, 0x53, 0xF1, 0x01, 0x0D, 0x2F, 0x2F, 0x7B]]) ∧
    ∀ env : Env, (run_sender env).2.count Event.recvfrom ≤ 1 := by
  constructor
  · set_option maxRecDepth 100000 in decide
  · intro env
    rcases run_sender_outcome env with ⟨h1, -⟩ | ⟨seg1, h1, -⟩ | ⟨seg1, h1, -⟩ |
      ⟨seg1, e, h1, -⟩ | ⟨seg1, wd2, s2, sb, h1, -⟩ <;>
    · rw [h1]
      simp [List.count_cons]

/-- C16: when the first send fails, when the receive fails, or when `parse_and_verify_ack`
rejects the received datagram, `run_sender` exits with a non-zero code having handed at most
one segment to `sendto`; and it exits with 0 only after a receive that succeeded, a datagram
that passed `parse_and_verify_ack`, and two sends that each transmitted their full
segment. -/
theorem run_sender_failure_paths (env : Env) :
    (∀ seg, (sent_segments (run_sender env).2).head? = some seg →
      (env.sent_data < 0 ∨ env.sent_data.toNat ≠ seg.length) →
      (run_sender env).1 ≠ 0 ∧ (sent_segments (run_sender env).2).length ≤ 1) ∧
    (env.recvd < 0 →
      (run_sender env).1 ≠ 0 ∧ (sent_segments (run_sender env).2).length ≤ 1) ∧
    (∀ e, parse_and_verify_ack env.recv_buf env.recvd.toNat = .error e →
      (run_sender env).1 ≠ 0 ∧ (sent_segments (run_sender env).2).length ≤ 1) ∧
    ((run_sender env).1 = 0 →
      ∃ seg1 fin ws,
        (run_sender env).2 = [Event.sendto seg1, Event.recvfrom, Event.sendto fin] ∧
        env.sent_data = seg1.length ∧ 0 ≤ env.recvd ∧
        parse_and_verify_ack env.recv_buf env.recvd.toNat = .ok ws ∧
        env.sent_final = fin.length) := by
  rcases run_sender_outcome env with ⟨h1, hc⟩ | ⟨seg1, h1, hc, hf⟩ | ⟨seg1, h1, hc, hs, hr⟩ |
    ⟨seg1, e, h1, hc, hs, hr, hp⟩ | ⟨seg1, wd2, s2, sb, h1, hs, hr, hp, hc⟩
  · have hne : (run_sender env).1 ≠ 0 := by omega
    rw [h1]
    simp [sent_segments, hne]
  · have hne : (run_sender env).1 ≠ 0 := by omega
    rw [h1]
    simp [sent_segments, hne]
  · have hne : (run_sender env).1 ≠ 0 := by omega
    rw [h1]
    simp [sent_segments, hne]
  · have hne : (run_sender env).1 ≠ 0 := by omega
    rw [h1]
    simp [sent_segments, hne]
  · rw [h1]
    refine ⟨?_, ?_, ?_, ?_⟩
    · intro seg hseg hfail
      simp only [sent_segments, List.head?_cons, Option.some.injEq] at hseg
      subst hseg
      omega
    · intro hneg
      omega
    · intro e he
      rw [hp] at he
      simp at he
    · intro h0
      refine ⟨seg1, _, (wd2, s2), rfl, hs, hr, hp, ?_⟩
      rw [bytes_length]
      omega

set_option maxRecDepth 100000 in
theorem run_sender_failure_paths_witness :
    parse_and_verify_ack env_bad_ack.recv_buf env_bad_ack.recvd.toNat = .error .InvalidFlag ∧
    ((run_sender env_bad_ack).1 ≠ 0 ∧
      (sent_segments (run_sender env_bad_ack).2).length ≤ 1) ∧
    run_sender env_bad_ack =
      (7, [Event.sendto [0x41, 0x00, 0x00, 0x00, 0x65, 0x53, 0xF1, 0x00, 0xEF, 0xB0, 0x5A, 0x3E],
       Event.recvfrom]) :=
  ⟨by decide, (run_sender_failure_paths env_bad_ack).2.2.1 .InvalidFlag (by decide),
   by decide⟩

/-- C20: the send buffer of `run_sender` always suffices: its size
`CTP_HEADER_LEN + CTP_MAX_PAYLOAD + 4` is 528, the total length of a segment with a payload
of at most 512 bytes is at most 528, so `build_ctp_data_packet` with capacity 528 never
returns 0 on such a payload, and `run_sender` never exits with 4 or 8. -/
theorem send_buffer_suffices :
    CTP_HEADER_LEN + CTP_MAX_PAYLOAD + 4 = 528 ∧
    (∀ n, n ≤ 512 → 12 + n + (if 0 < n then 4 else 0) ≤ 528) ∧
    (∀ (out : Mem) (payload : Option Mem) (n s w : Nat) (now : Int), n ≤ 512 →
      (build_ctp_data_packet out (CTP_HEADER_LEN + CTP_MAX_PAYLOAD + 4)
        payload n s w now).1 ≠ 0) ∧
    (∀ env : Env, (run_sender env).1 ≠ 4 ∧ (run_sender env).1 ≠ 8) := by
  refine ⟨rfl, ?_, ?_, ?_⟩
  · intro n hn
    split_ifs <;> omega
  · intro out payload n s w now hn
    exact build_528_ne_zero out payload n s w now hn
  · intro env
    rcases run_sender_outcome env with ⟨-, hc⟩ | ⟨seg1, -, hc, -⟩ | ⟨seg1, -, hc, -⟩ |
      ⟨seg1, e, -, hc, -⟩ | ⟨seg1, wd2, s2, sb, -, -, -, -, hc⟩ <;> omega

set_option maxRecDepth 100000 in
theorem send_buffer_suffices_witness :
    (build_ctp_data_packet stale (CTP_HEADER_LEN + CTP_MAX_PAYLOAD + 4) none 512 0 1 0).1
      = 528 ∧
    (build_ctp_data_packet stale (CTP_HEADER_LEN + CTP_MAX_PAYLOAD + 4) none 512 0 1 0).1
      ≠ 0 ∧
    ((run_sender env_ok).1 ≠ 4 ∧ (run_sender env_ok).1 ≠ 8) :=
  ⟨by decide, send_buffer_suffices.2.2.1 stale none 512 0 1 0 (by decide),
   send_buffer_suffices.2.2.2 env_ok⟩

end CTP
